import Mathlib

/-!
# Shallow embedding of the Prisma Next.js demo inventory/lending tracker

This development embeds the backend of the repository — the action
dispatcher `handler` in `src/pages/api/actions.ts`, the snapshot reader
`getSnapshot`, and the relational schema described by
`prisma/migrations/*` — as pure Lean functions over an explicit store,
and proves the loan-state-machine and dispatcher properties stated in
the design document.

The database is modelled as lists of rows plus the auto-increment
sequences; Prisma client calls become list operations, and a thrown
Prisma error (`PrismaClientKnownRequestError` with its code, or a plain
`Error`) becomes the error branch of `Except`.  An interactive
transaction (`prisma.$transaction`) either produces a whole new store or
fails leaving the store untouched, which is exactly the all-or-nothing
behaviour of the source.
-/

/-- A row of the `item_type` table: id, unique code, name. -/
structure ItemType where
  id : Nat
  code : String
  name : String
deriving DecidableEq

/-- A row of the `category` table; `parentId` is a nullable self-reference
(`category_parent_id_fkey`). -/
structure Category where
  id : Nat
  code : String
  name : String
  parentId : Option Nat
deriving DecidableEq

/-- A row of the `item` table.  `currentLoanId` is the nullable unique
reference (`item_current_loan_id_key`, `item_current_loan_id_fkey`) to the
item's single open loan. -/
structure Item where
  id : Nat
  title : String
  itemTypeId : Nat
  requestedBy : Option String
  currentLoanId : Option Nat
deriving DecidableEq

/-- A row of the `loan` table.  `checkoutDate` is an epoch-milliseconds
timestamp; the loan is open while `returnedAt` is null. -/
structure Loan where
  id : Nat
  itemId : Nat
  patronName : String
  checkoutDate : Nat
  returnedAt : Option Nat
deriving DecidableEq

/-- The relational store: the four tables, the implicit `_ItemToCategory`
join table (pairs `(itemId, categoryId)`), and the auto-increment
sequences backing the `SERIAL` primary keys. -/
structure Store where
  itemTypes : List ItemType
  categories : List Category
  items : List Item
  loans : List Loan
  links : List (Nat × Nat)
  nextItemTypeId : Nat
  nextCategoryId : Nat
  nextItemId : Nat
  nextLoanId : Nat
deriving DecidableEq

/-- An error escaping a Prisma call: either a
`PrismaClientKnownRequestError` carrying its Prisma error code
(`P2002` unique violation, `P2003` foreign-key violation, `P2025` required
record not found) and message, or a plain thrown `Error` with a message. -/
inductive DbErr where
  | known (code : String) (msg : String)
  | generic (msg : String)
deriving DecidableEq

/-- The request body's `payload` object.  Each field the dispatcher reads
is optional: an absent field is `none`.  Number-typed fields are modelled
as `Option Nat`, so the source's `typeof x !== 'number' || isNaN(x)`
check becomes an `Option.isNone` check. -/
structure Payload where
  code : Option String := none
  name : Option String := none
  parentId : Option Nat := none
  title : Option String := none
  itemTypeId : Option Nat := none
  requestedBy : Option String := none
  itemId : Option Nat := none
  categoryId : Option Nat := none
  patronName : Option String := none
  id : Option Nat := none
deriving DecidableEq

/-- An incoming HTTP request, reduced to the parts the handler reads:
method, `authorization` header, and the parsed body fields. -/
structure Request where
  method : String
  authHeader : Option String := none
  action : Option String := none
  payload : Option Payload := none
deriving DecidableEq

/-- Snapshot projection of an item type (`select: id, code, name`). -/
structure SnapItemType where
  id : Nat
  code : String
  name : String
deriving DecidableEq

/-- Snapshot projection of a category (`select: id, code, name, parentId`). -/
structure SnapCategory where
  id : Nat
  code : String
  name : String
  parentId : Option Nat
deriving DecidableEq

/-- Snapshot projection of a related record (`select: id, name`), used for
an item's type and its categories. -/
structure SnapRef where
  id : Nat
  name : String
deriving DecidableEq

/-- Snapshot projection of an item's current loan
(`select: id, patronName, checkoutDate`), with the checkout date already
rendered to its ISO text form. -/
structure SnapLoan where
  id : Nat
  patronName : String
  checkoutDate : String
deriving DecidableEq

/-- Snapshot projection of an item, with its nested type, categories and
current loan.  The source's Prisma query inner-joins the item type; the
lookup is kept as an `Option` here because the join target is resolved
from the store. -/
structure SnapItem where
  id : Nat
  title : String
  requestedBy : Option String
  itemType : Option SnapRef
  categories : List SnapRef
  currentLoan : Option SnapLoan
deriving DecidableEq

/-- The full snapshot `{ itemTypes, categories, items }` returned to the
frontend. -/
structure Snapshot where
  itemTypes : List SnapItemType
  categories : List SnapCategory
  items : List SnapItem
deriving DecidableEq

/-- The HTTP response, reduced to the parts the handler writes: status
code, the `ok` flag, and the optional `message` / `snapshot` body
fields. -/
structure Response where
  status : Nat
  ok : Bool
  message : Option String
  snapshot : Option Snapshot
deriving DecidableEq

/-- JavaScript `s.trim()`: strip leading and trailing whitespace;
modelled on the character list of the string (the usual whitespace
characters space, tab, CR, LF). -/
def jsTrim (s : String) : String :=
  ⟨((s.data.dropWhile Char.isWhitespace).reverse.dropWhile
      Char.isWhitespace).reverse⟩

/-- JavaScript `s.startsWith(pre)`. -/
def jsStartsWith (s pre : String) : Bool :=
  pre.data.isPrefixOf s.data

/-- JavaScript `s.split(sep)` with a one-character separator, on the
character list: the split of `[]` is `[""]`, and each occurrence of the
separator opens a new chunk (so `"Bearer  x"` splits into
`["Bearer", "", "x"]`, as in JavaScript). -/
def splitChar (sep : Char) : List Char → List (List Char)
  | [] => [[]]
  | c :: cs =>
    match splitChar sep cs with
    | [] => [[]]
    | chunk :: rest =>
      if c = sep then [] :: chunk :: rest else (c :: chunk) :: rest

/-- JavaScript `s.split(sep)` returning strings. -/
def jsSplit (sep : Char) (s : String) : List String :=
  (splitChar sep s.data).map fun l => ⟨l⟩

/-- The JavaScript test `!s || s.trim().length === 0` on an optional
string field: true when the field is absent, empty (falsy), or
whitespace-only. -/
def strBlank : Option String → Bool
  | none => true
  | some s => jsTrim s = ""

/-- Models `new Date(t).toISOString()`: a fixed injective rendering of an
epoch-milliseconds timestamp into timestamp text.  Every property proved
below depends only on it being a fixed function of the timestamp, not on
the exact digits of the ISO-8601 format, so the rendering is kept
abstractly as the decimal form of the timestamp. -/
def toISOString (t : Nat) : String := toString t

/-- `updateMany`-style bulk update: apply `f` to every row satisfying
`p`, leaving the rest unchanged. -/
def updateWhere {α : Type} (p : α → Bool) (f : α → α) (l : List α) : List α :=
  l.map fun a => if p a then f a else a

/-- The `count` field of an `updateMany` result: how many rows satisfied
the `where` clause. -/
def countWhere {α : Type} (p : α → Bool) (l : List α) : Nat :=
  (l.filter p).length

/-- Ascending order on items by primary key, the `orderBy: { id: 'asc' }`
of the snapshot query. -/
def itemIdLe (a b : Item) : Prop := a.id ≤ b.id

instance : DecidableRel itemIdLe := fun a b => Nat.decLe a.id b.id

instance : IsTotal Item itemIdLe := ⟨fun a b => Nat.le_total a.id b.id⟩

instance : IsTrans Item itemIdLe := ⟨fun _ _ _ => Nat.le_trans⟩

/-- The `select` projection of one item row in the snapshot query: its
scalar fields with the nested item type, categories (through the join
table) and current loan; the loan's `checkoutDate` is rendered with
`toISOString`. -/
def snapItemOf (s : Store) (it : Item) : SnapItem :=
  { id := it.id
    title := it.title
    requestedBy := it.requestedBy
    itemType := (s.itemTypes.find? fun t => t.id = it.itemTypeId).map
      fun t => ⟨t.id, t.name⟩
    categories := (s.links.filter fun pr => pr.1 = it.id).filterMap
      fun pr => (s.categories.find? fun c => c.id = pr.2).map
        fun c => ⟨c.id, c.name⟩
    currentLoan := it.currentLoanId.bind fun lid =>
      (s.loans.find? fun l => l.id = lid).map fun l =>
        ⟨l.id, l.patronName, toISOString l.checkoutDate⟩ }

/-- `getSnapshot` of `src/pages/api/actions.ts`: all item types, all
categories, and all items ordered by id with their nested type, category
and current-loan projections (`orderBy: { id: 'asc' }` modelled as an
insertion sort on the id). -/
def getSnapshot (s : Store) : Snapshot :=
  { itemTypes := s.itemTypes.map fun t => ⟨t.id, t.code, t.name⟩
    categories := s.categories.map fun c => ⟨c.id, c.code, c.name, c.parentId⟩
    items := (List.insertionSort itemIdLe s.items).map (snapItemOf s) }

/-- `prisma.itemType.create({ data: { code, name } })`: fails with `P2002`
when the unique constraint `item_type_code_key` is violated, otherwise
appends a fresh row. -/
def itemTypeCreate (s : Store) (code name : String) : Except DbErr Store :=
  if s.itemTypes.any fun t => t.code = code then
    .error (.known "P2002" "Unique constraint failed on the fields: (code)")
  else
    .ok { s with
      itemTypes := s.itemTypes ++ [⟨s.nextItemTypeId, code, name⟩]
      nextItemTypeId := s.nextItemTypeId + 1 }

/-- `prisma.category.create({ data: { code, name, parentId } })`: fails
with `P2003` when `parentId` references no category
(`category_parent_id_fkey`), with `P2002` on a duplicate code
(`category_code_key`), otherwise appends a fresh row. -/
def categoryCreate (s : Store) (code name : String) (parentId : Option Nat) :
    Except DbErr Store :=
  if s.categories.any fun c => c.code = code then
    .error (.known "P2002" "Unique constraint failed on the fields: (code)")
  else if parentId.any fun p => s.categories.all fun c => ¬ c.id = p then
    .error (.known "P2003" "Foreign key constraint violated: category_parent_id_fkey")
  else
    .ok { s with
      categories := s.categories ++ [⟨s.nextCategoryId, code, name, parentId⟩]
      nextCategoryId := s.nextCategoryId + 1 }

/-- The `requestedBy` normalisation of the `createItem` case:
`(typeof r === 'string' && r.trim().length === 0) ? null : (r ?? null)`. -/
def normRequestedBy : Option String → Option String
  | none => none
  | some s => if jsTrim s = "" then none else some s

/-- `prisma.item.create({ data: { title, itemTypeId, requestedBy } })`:
fails with `P2003` when `itemTypeId` references no item type
(`item_item_type_id_fkey`), otherwise appends a fresh row with no current
loan and no categories. -/
def itemCreate (s : Store) (title : String) (itemTypeId : Nat)
    (requestedBy : Option String) : Except DbErr Store :=
  if s.itemTypes.all fun t => ¬ t.id = itemTypeId then
    .error (.known "P2003" "Foreign key constraint violated: item_item_type_id_fkey")
  else
    .ok { s with
      items := s.items ++
        [⟨s.nextItemId, title, itemTypeId, normRequestedBy requestedBy, none⟩]
      nextItemId := s.nextItemId + 1 }

/-- `prisma.item.update({ where: { id }, data: { categories: { connect } } })`:
`P2025` when the item to update is missing, `P2025` when the category to
connect is missing, otherwise inserts the join row (a no-op when already
connected, as for Prisma's implicit many-to-many connect). -/
def itemConnectCategory (s : Store) (itemId categoryId : Nat) :
    Except DbErr Store :=
  if s.items.all fun it => ¬ it.id = itemId then
    .error (.known "P2025" "Record to update not found.")
  else if s.categories.all fun c => ¬ c.id = categoryId then
    .error (.known "P2025"
      "An operation failed because it depends on one or more records that were required but not found.")
  else if (itemId, categoryId) ∈ s.links then
    .ok s
  else
    .ok { s with links := s.links ++ [(itemId, categoryId)] }

/-- `prisma.item.update({ where: { id }, data: { categories: { disconnect } } })`:
`P2025` when the item to update is missing; disconnecting a category that
is absent or not connected is a no-op. -/
def itemDisconnectCategory (s : Store) (itemId categoryId : Nat) :
    Except DbErr Store :=
  if s.items.all fun it => ¬ it.id = itemId then
    .error (.known "P2025" "Record to update not found.")
  else
    .ok { s with links := s.links.filter fun pr => ¬ pr = (itemId, categoryId) }

/-- The `checkout` transaction of `src/pages/api/actions.ts`:
`tx.loan.create({ data: { itemId, patronName } })` (fails with `P2003`
via `loan_item_id_fkey` when the item is missing; `checkoutDate` defaults
to `now()`), then the conditional write
`tx.item.updateMany({ where: { id, currentLoanId: null }, data: { currentLoanId } })`;
a zero count throws, rolling the whole transaction (including the created
loan) back. -/
def checkoutTx (s : Store) (itemId : Nat) (patronName : String) (now : Nat) :
    Except DbErr Store :=
  if s.items.all fun it => ¬ it.id = itemId then
    .error (.known "P2003" "Foreign key constraint violated: loan_item_id_fkey")
  else if countWhere (fun it => it.id = itemId ∧ it.currentLoanId = none)
      s.items = 0 then
    .error (.generic "Item already loaned or does not exist")
  else
    .ok { s with
      loans := s.loans ++ [⟨s.nextLoanId, itemId, patronName, now, none⟩]
      items := updateWhere (fun it => it.id = itemId ∧ it.currentLoanId = none)
        (fun it => { it with currentLoanId := some s.nextLoanId }) s.items
      nextLoanId := s.nextLoanId + 1 }

/-- The `return` case of `src/pages/api/actions.ts`:
`prisma.item.findUnique({ where: { id }, select: { currentLoanId } })`
outside the transaction, throwing `'No active loan for this item'` when
the item is missing or its `currentLoanId` is null; then the transaction
`tx.loan.update({ where: { id: currentLoanId }, data: { returnedAt: now } })`
(`P2025` when that loan row is missing) followed by the conditional write
clearing `currentLoanId` only while it still equals the loan id read
first; a zero count throws, rolling everything back. -/
def returnTx (s : Store) (itemId : Nat) (now : Nat) : Except DbErr Store :=
  match (s.items.find? fun it => it.id = itemId).bind (fun it => it.currentLoanId) with
  | none => .error (.generic "No active loan for this item")
  | some lid =>
    if s.loans.all fun l => ¬ l.id = lid then
      .error (.known "P2025" "Record to update not found.")
    else if countWhere (fun it => it.id = itemId ∧ it.currentLoanId = some lid)
        s.items = 0 then
      .error (.generic "Failed to return item. It may have been returned by another process.")
    else
      .ok { s with
        loans := updateWhere (fun l => l.id = lid)
          (fun l => { l with returnedAt := some now }) s.loans
        items := updateWhere (fun it => it.id = itemId ∧ it.currentLoanId = some lid)
          (fun it => { it with currentLoanId := none }) s.items }

/-- `prisma.item.delete({ where: { id } })`: `P2025` when the item is
missing; otherwise the row is deleted and, per `loan_item_id_fkey ON
DELETE CASCADE` and the join table's cascading foreign keys, its loan
rows and join rows go with it. -/
def itemDelete (s : Store) (id : Nat) : Except DbErr Store :=
  if s.items.all fun it => ¬ it.id = id then
    .error (.known "P2025" "Record to delete does not exist.")
  else
    .ok { s with
      items := s.items.filter fun it => ¬ it.id = id
      loans := s.loans.filter fun l => ¬ l.itemId = id
      links := s.links.filter fun pr => ¬ pr.1 = id }

/-- A validation failure response: status 400 with the message, nothing
mutated. -/
def errResp (status : Nat) (msg : String) : Response :=
  ⟨status, false, some msg, none⟩

/-- The success response: status 200, `ok: true`, the full fresh
snapshot. -/
def okResp (s : Store) : Response :=
  ⟨200, true, none, some (getSnapshot s)⟩

/-- The `catch` block of the handler applied to a mutation result: a
`P2025` known error becomes 404 "Record not found", every other error
becomes 400 with its message, and success becomes 200 with the snapshot
of the mutated store. -/
def finish (s : Store) : Except DbErr Store → Response × Store
  | .error (.known c m) =>
    (if c = "P2025" then errResp 404 "Record not found" else errResp 400 m, s)
  | .error (.generic m) => (errResp 400 m, s)
  | .ok s2 => (okResp s2, s2)

/-- The `switch (action)` of the handler: field validation for each case
followed by the corresponding mutation, an unknown action answered with a
400 "Unknown action" error. -/
def runAction (s : Store) (now : Nat) (action : String) (p : Payload) :
    Response × Store :=
  match action with
  | "createItemType" =>
    if strBlank p.code then (errResp 400 "Item type code is required.", s)
    else if strBlank p.name then (errResp 400 "Item type name is required.", s)
    else finish s (itemTypeCreate s (p.code.getD "") (p.name.getD ""))
  | "createCategory" =>
    if strBlank p.code then (errResp 400 "Category code is required.", s)
    else if strBlank p.name then (errResp 400 "Category name is required.", s)
    else finish s (categoryCreate s (p.code.getD "") (p.name.getD "") p.parentId)
  | "createItem" =>
    if strBlank p.title then (errResp 400 "Item title is required.", s)
    else if p.itemTypeId.isNone then
      (errResp 400 "Item type ID is required and must be a number.", s)
    else finish s (itemCreate s (p.title.getD "") (p.itemTypeId.getD 0) p.requestedBy)
  | "linkCategory" =>
    if p.itemId.isNone then
      (errResp 400 "Item ID is required and must be a number.", s)
    else if p.categoryId.isNone then
      (errResp 400 "Category ID is required and must be a number.", s)
    else finish s (itemConnectCategory s (p.itemId.getD 0) (p.categoryId.getD 0))
  | "unlinkCategory" =>
    if p.itemId.isNone then
      (errResp 400 "Item ID is required and must be a number.", s)
    else if p.categoryId.isNone then
      (errResp 400 "Category ID is required and must be a number.", s)
    else finish s (itemDisconnectCategory s (p.itemId.getD 0) (p.categoryId.getD 0))
  | "checkout" =>
    if p.itemId.isNone then
      (errResp 400 "Item ID is required and must be a number.", s)
    else if strBlank p.patronName then
      (errResp 400 "Patron name is required.", s)
    else finish s (checkoutTx s (p.itemId.getD 0) (p.patronName.getD "") now)
  | "return" =>
    if p.itemId.isNone then
      (errResp 400 "Item ID is required and must be a number.", s)
    else finish s (returnTx s (p.itemId.getD 0) now)
  | "deleteItem" =>
    if p.id.isNone then
      (errResp 400 "Item ID is required and must be a number.", s)
    else finish s (itemDelete s (p.id.getD 0))
  | _ => (errResp 400 "Unknown action", s)

/-- The bearer-token check of the handler:
`!authHeader || !authHeader.startsWith('Bearer ') || authHeader.split(' ')[1] !== envToken`. -/
def authOk (envToken : String) : Option String → Bool
  | none => false
  | some h => jsStartsWith h "Bearer " && (jsSplit ' ' h).get? 1 = some envToken

/-- `!process.env.NEXT_PUBLIC_DEMO_AUTH_TOKEN`: the configured token is
missing or empty (falsy). -/
def tokenMissing : Option String → Bool
  | none => true
  | some t => t = ""

/-- The default export `handler` of `src/pages/api/actions.ts`:
misconfiguration check (500), the GET branch answering the snapshot
before any credential check, the method gate (405), the bearer-token gate
(401), the `action`/`payload` presence check (400), then the action
switch.  Returns the response together with the store after the
request. -/
def handler (envToken : Option String) (now : Nat) (req : Request)
    (s : Store) : Response × Store :=
  if tokenMissing envToken then
    (errResp 500 "Server configuration error: Authentication token not set.", s)
  else if req.method = "GET" then
    (okResp s, s)
  else if ¬ req.method = "POST" then
    (errResp 405 "Method not allowed", s)
  else if ¬ authOk (envToken.getD "") req.authHeader then
    (errResp 401 "Unauthorized: Invalid or missing token.", s)
  else
    match req.action, req.payload with
    | some a, some p =>
      if a = "" then (errResp 400 "Action and payload are required.", s)
      else runAction s now a p
    | _, _ => (errResp 400 "Action and payload are required.", s)

/-- The primary keys of a table are pairwise distinct. -/
def distinctKeys {α : Type} (key : α → Nat) (l : List α) : Prop :=
  l.Pairwise fun a b => key a ≠ key b

instance {α : Type} (key : α → Nat) (l : List α) :
    Decidable (distinctKeys key l) :=
  List.instDecidablePairwise l

/-- Well-formedness of a store: the schema constraints (primary keys
distinct, `loan_item_id_fkey`, `item_current_loan_id_fkey`) together with
freshness of the auto-increment sequences — every reachable database
state satisfies these. -/
def WF (s : Store) : Prop :=
  distinctKeys (fun t => t.id) s.itemTypes ∧
  distinctKeys (fun c => c.id) s.categories ∧
  distinctKeys (fun it => it.id) s.items ∧
  distinctKeys (fun l => l.id) s.loans ∧
  (∀ l ∈ s.loans, ∃ it ∈ s.items, it.id = l.itemId) ∧
  (∀ it ∈ s.items, ∀ lid ∈ it.currentLoanId.toList, ∃ l ∈ s.loans, l.id = lid) ∧
  (∀ t ∈ s.itemTypes, t.id < s.nextItemTypeId) ∧
  (∀ c ∈ s.categories, c.id < s.nextCategoryId) ∧
  (∀ it ∈ s.items, it.id < s.nextItemId) ∧
  (∀ l ∈ s.loans, l.id < s.nextLoanId)

instance (s : Store) : Decidable (WF s) := by
  unfold WF; infer_instance

/-- The open loans of one item: loans referencing it whose `returnedAt`
is still null. -/
def openLoansFor (s : Store) (itemId : Nat) : List Loan :=
  s.loans.filter fun l => l.itemId = itemId ∧ l.returnedAt = none

/-- The loan-state-machine invariant of the design document, per item:
`currentLoanId`, when non-null, points at an open loan row of that item;
when null the item has no open loan; and at most one open loan exists for
the item. -/
def ItemInv (s : Store) (it : Item) : Prop :=
  (∀ lid ∈ it.currentLoanId.toList,
    ∃ l ∈ s.loans, l.id = lid ∧ l.itemId = it.id ∧ l.returnedAt = none) ∧
  (it.currentLoanId = none → openLoansFor s it.id = []) ∧
  (openLoansFor s it.id).length ≤ 1

instance (s : Store) (it : Item) : Decidable (ItemInv s it) := by
  unfold ItemInv; infer_instance

/-- The loan-state-machine invariant over the whole store. -/
def Invariant (s : Store) : Prop :=
  ∀ it ∈ s.items, ItemInv s it

instance (s : Store) : Decidable (Invariant s) :=
  List.decidableBAll _ s.items

/-- A small concrete store patterned on the seed data: two item types,
two categories, three items, one open loan on item 1. -/
def sampleStore : Store :=
  { itemTypes := [⟨1, "BOOK", "Book"⟩, ⟨2, "ELEC", "Electronics"⟩]
    categories := [⟨101, "FICT", "Fiction", none⟩, ⟨102, "SCIFI", "Science Fiction", some 101⟩]
    items :=
      [⟨1, "The Guide", 1, none, some 1001⟩,
       ⟨2, "Laptop Pro X", 2, some "Ford Prefect", none⟩,
       ⟨3, "Learning Prisma", 1, none, none⟩]
    loans := [⟨1001, 1, "Arthur Dent", 50, none⟩]
    links := [(1, 101), (1, 102), (3, 101)]
    nextItemTypeId := 3
    nextCategoryId := 103
    nextItemId := 4
    nextLoanId := 1002 }

/-- The store produced by a committed checkout transaction: the fresh
open loan appended and the matching item repointed (the explicit form of
the `.ok` branch of `checkoutTx`). -/
def checkoutResult (s : Store) (itemId : Nat) (pn : String) (now : Nat) :
    Store :=
  { s with
    loans := s.loans ++ [⟨s.nextLoanId, itemId, pn, now, none⟩]
    items := updateWhere (fun j => j.id = itemId)
      (fun j => { j with currentLoanId := some s.nextLoanId }) s.items
    nextLoanId := s.nextLoanId + 1 }

/-- The store produced by a committed return transaction: loan `lid`
closed and the matching item's pointer cleared (the explicit form of the
`.ok` branch of `returnTx` on a well-formed store). -/
def returnResult (s : Store) (itemId lid now : Nat) : Store :=
  { s with
    loans := updateWhere (fun l => l.id = lid)
      (fun l => { l with returnedAt := some now }) s.loans
    items := updateWhere (fun j => j.id = itemId)
      (fun j => { j with currentLoanId := none }) s.items }

/-- The eight literal action names of the switch in
`src/pages/api/actions.ts`. -/
def knownActions : List String :=
  ["createItemType", "createCategory", "createItem", "linkCategory",
   "unlinkCategory", "checkout", "return", "deleteItem"]

/-- A store whose single item is AVAILABLE but already carries one closed
loan in its history. -/
def historyStore : Store :=
  { itemTypes := [⟨1, "BOOK", "Book"⟩]
    categories := []
    items := [⟨1, "The Guide", 1, none, none⟩]
    loans := [⟨900, 1, "Zaphod", 10, some 20⟩]
    links := []
    nextItemTypeId := 2
    nextCategoryId := 1
    nextItemId := 2
    nextLoanId := 1001 }

/-! ## Generic list helper lemmas -/

theorem distinctKeys_eq_of_key {α : Type} {key : α → Nat} {l : List α}
    (hd : distinctKeys key l) {x y : α} (hx : x ∈ l) (hy : y ∈ l)
    (hk : key x = key y) : x = y := by
  induction l with
  | nil => cases hx
  | cons a as ih =>
    rcases List.pairwise_cons.mp hd with ⟨ha, has⟩
    rcases List.mem_cons.mp hx with rfl | hx2
    · rcases List.mem_cons.mp hy with rfl | hy2
      · rfl
      · exact absurd hk (ha y hy2)
    · rcases List.mem_cons.mp hy with rfl | hy2
      · exact absurd hk.symm (ha x hx2)
      · exact ih has hx2 hy2

theorem countWhere_eq_zero {α : Type} {p : α → Bool} {l : List α} :
    countWhere p l = 0 ↔ ∀ a ∈ l, p a = false := by
  unfold countWhere
  rw [List.length_eq_zero, List.filter_eq_nil_iff]
  simp [Bool.not_eq_true]

theorem countWhere_ne_zero {α : Type} {p : α → Bool} {l : List α}
    {a : α} (ha : a ∈ l) (hp : p a = true) : ¬ countWhere p l = 0 := by
  intro h
  have := countWhere_eq_zero.mp h a ha
  rw [this] at hp
  cases hp

theorem updateWhere_eq_self {α : Type} {p : α → Bool} {f : α → α}
    {l : List α} (h : ∀ a ∈ l, p a = false) : updateWhere p f l = l := by
  unfold updateWhere
  induction l with
  | nil => rfl
  | cons a as ih =>
    have ha := h a (List.mem_cons_self a as)
    simp [ha, ih fun b hb => h b (List.mem_cons_of_mem a hb)]

theorem updateWhere_congr {α : Type} {p q : α → Bool} {f : α → α}
    {l : List α} (h : ∀ a ∈ l, p a = q a) :
    updateWhere p f l = updateWhere q f l := by
  unfold updateWhere
  exact List.map_congr_left fun a ha => by rw [h a ha]

theorem find?_eq_of_distinct {α : Type} {key : α → Nat} {l : List α}
    (hd : distinctKeys key l) {x : α} (hx : x ∈ l) {i : Nat}
    (hk : key x = i) : (l.find? fun a => key a = i) = some x := by
  induction l with
  | nil => cases hx
  | cons a as ih =>
    rcases List.pairwise_cons.mp hd with ⟨ha, has⟩
    rcases List.mem_cons.mp hx with rfl | hx2
    · rw [List.find?_cons_of_pos]
      simp [hk]
    · have hne : ¬ key a = i := fun h2 => (ha x hx2) (h2.trans hk.symm)
      rw [List.find?_cons_of_neg]
      · exact ih has hx2
      · simp [hne]

/-! ## Transaction-level lemmas for checkout and return -/

theorem items_find?_eq {s : Store}
    (hd : distinctKeys (fun j : Item => j.id) s.items)
    {it : Item} (hmem : it ∈ s.items) {i : Nat} (hid : it.id = i) :
    (s.items.find? fun j => j.id = i) = some it :=
  find?_eq_of_distinct hd hmem hid

theorem items_not_all_ne {s : Store} {i : Nat} {it : Item}
    (hmem : it ∈ s.items) (hid : it.id = i) :
    ¬ (s.items.all fun j => ¬ j.id = i) = true := by
  simp only [List.all_eq_true]
  push_neg
  refine ⟨it, hmem, ?_⟩
  simp [hid]

/-- A checkout of an existing available item succeeds, appending exactly
one open loan with the fresh loan id and pointing the item at it. -/
theorem checkoutTx_success {s : Store} {itemId : Nat} (pn : String) (now : Nat)
    (hd : distinctKeys (fun j : Item => j.id) s.items)
    {it : Item} (hmem : it ∈ s.items) (hid : it.id = itemId)
    (hav : it.currentLoanId = none) :
    checkoutTx s itemId pn now = .ok
      { s with
        loans := s.loans ++ [⟨s.nextLoanId, itemId, pn, now, none⟩]
        items := updateWhere (fun j => j.id = itemId)
          (fun j => { j with currentLoanId := some s.nextLoanId }) s.items
        nextLoanId := s.nextLoanId + 1 } := by
  unfold checkoutTx
  rw [if_neg (items_not_all_ne hmem hid),
    if_neg (countWhere_ne_zero hmem (by simp [hid, hav])),
    updateWhere_congr (q := fun j : Item => j.id = itemId)]
  intro j hj
  by_cases h : j.id = itemId
  · have hj2 : j = it := distinctKeys_eq_of_key hd hj hmem (h.trans hid.symm)
    simp [hj2, hid, hav]
  · simp [h]

/-- A checkout of an existing item that is already on loan fails with the
conflict error. -/
theorem checkoutTx_conflict {s : Store} {itemId : Nat} (pn : String) (now : Nat)
    (hd : distinctKeys (fun j : Item => j.id) s.items)
    {it : Item} (hmem : it ∈ s.items) (hid : it.id = itemId) {lid : Nat}
    (hln : it.currentLoanId = some lid) :
    checkoutTx s itemId pn now =
      .error (.generic "Item already loaned or does not exist") := by
  unfold checkoutTx
  rw [if_neg (items_not_all_ne hmem hid), if_pos]
  exact countWhere_eq_zero.mpr fun j hj => by
    by_cases h : j.id = itemId
    · have hj2 : j = it := distinctKeys_eq_of_key hd hj hmem (h.trans hid.symm)
      simp [hj2, hln]
    · simp [h]

/-- A return of an existing item holding an open loan succeeds, closing
exactly that loan and clearing the item's pointer. -/
theorem returnTx_success {s : Store} {itemId : Nat} (now : Nat)
    (hd : distinctKeys (fun j : Item => j.id) s.items)
    (hfk : ∀ j ∈ s.items, ∀ lid ∈ j.currentLoanId.toList,
      ∃ l ∈ s.loans, l.id = lid)
    {it : Item} (hmem : it ∈ s.items) (hid : it.id = itemId) {lid : Nat}
    (hln : it.currentLoanId = some lid) :
    returnTx s itemId now = .ok
      { s with
        loans := updateWhere (fun l => l.id = lid)
          (fun l => { l with returnedAt := some now }) s.loans
        items := updateWhere (fun j => j.id = itemId)
          (fun j => { j with currentLoanId := none }) s.items } := by
  unfold returnTx
  rw [items_find?_eq hd hmem hid]
  simp only [Option.some_bind, hln]
  obtain ⟨l, hl, hlid⟩ := hfk it hmem lid (by simp [hln])
  have hall : ¬ (s.loans.all fun l2 => ¬ l2.id = lid) = true := by
    simp only [List.all_eq_true]
    push_neg
    exact ⟨l, hl, by simp [hlid]⟩
  rw [if_neg hall,
    if_neg (countWhere_ne_zero hmem (by simp [hid, hln])),
    updateWhere_congr (q := fun j : Item => j.id = itemId)]
  intro j hj
  by_cases h : j.id = itemId
  · have hj2 : j = it := distinctKeys_eq_of_key hd hj hmem (h.trans hid.symm)
    simp [hj2, hid, hln]
  · simp [h]

/-- A return fails fast with "No active loan" when no stored item has the
requested id with a non-null loan pointer. -/
theorem returnTx_noloan {s : Store} {itemId : Nat} (now : Nat)
    (h : ∀ j ∈ s.items, j.id = itemId → j.currentLoanId = none) :
    returnTx s itemId now = .error (.generic "No active loan for this item") := by
  unfold returnTx
  cases hf : s.items.find? fun j => j.id = itemId with
  | none => simp [hf]
  | some it =>
    have hmem := List.mem_of_find?_eq_some hf
    have hpred := List.find?_some hf
    have hnone : it.currentLoanId = none := h it hmem (by simpa using hpred)
    simp [hf, hnone]

/-! ## More helper lemmas: updateWhere structure, success elimination -/

theorem countWhere_pos_ex {α : Type} {p : α → Bool} {l : List α}
    (h : ¬ countWhere p l = 0) : ∃ a ∈ l, p a = true := by
  by_contra hc
  push_neg at hc
  exact h (countWhere_eq_zero.mpr fun a ha =>
    Bool.not_eq_true _ ▸ (by simpa using hc a ha))

theorem map_key_updateWhere {α : Type} {key : α → Nat} {p : α → Bool}
    {f : α → α} {l : List α} (h : ∀ a, key (f a) = key a) :
    (updateWhere p f l).map key = l.map key := by
  unfold updateWhere
  rw [List.map_map]
  exact List.map_congr_left fun a _ => by
    by_cases hp : p a = true <;> simp [hp, h a]

theorem distinctKeys_iff_nodup {α : Type} {key : α → Nat} {l : List α} :
    distinctKeys key l ↔ (l.map key).Nodup := by
  unfold distinctKeys List.Nodup
  exact (List.pairwise_map).symm

theorem distinctKeys_updateWhere {α : Type} {key : α → Nat} {p : α → Bool}
    {f : α → α} {l : List α} (hk : ∀ a, key (f a) = key a)
    (hd : distinctKeys key l) : distinctKeys key (updateWhere p f l) := by
  rw [distinctKeys_iff_nodup] at hd ⊢
  rwa [map_key_updateWhere hk]

theorem mem_updateWhere_pos {α : Type} {p : α → Bool} {f : α → α}
    {l : List α} {a : α} (ha : a ∈ l) (hp : p a = true) :
    f a ∈ updateWhere p f l :=
  List.mem_map.mpr ⟨a, ha, by simp [hp]⟩

theorem mem_updateWhere_neg {α : Type} {p : α → Bool} {f : α → α}
    {l : List α} {a : α} (ha : a ∈ l) (hp : p a = false) :
    a ∈ updateWhere p f l :=
  List.mem_map.mpr ⟨a, ha, by simp [hp]⟩

theorem of_mem_updateWhere {α : Type} {p : α → Bool} {f : α → α}
    {l : List α} {b : α} (hb : b ∈ updateWhere p f l) :
    ∃ a ∈ l, b = if p a then f a else a := by
  obtain ⟨a, ha, hab⟩ := List.mem_map.mp hb
  exact ⟨a, ha, hab.symm⟩

/-- Anatomy of a committed checkout transaction: some stored item matched
the conditional write, and the new store is the old one with the fresh
open loan appended and the matching item repointed. -/
theorem checkoutTx_ok_elim {s : Store} {itemId : Nat} {pn : String}
    {now : Nat} {s2 : Store} (h : checkoutTx s itemId pn now = .ok s2) :
    (∃ it0 ∈ s.items, it0.id = itemId ∧ it0.currentLoanId = none) ∧
    s2 = { s with
      loans := s.loans ++ [⟨s.nextLoanId, itemId, pn, now, none⟩]
      items := updateWhere (fun j => j.id = itemId ∧ j.currentLoanId = none)
        (fun j => { j with currentLoanId := some s.nextLoanId }) s.items
      nextLoanId := s.nextLoanId + 1 } := by
  unfold checkoutTx at h
  split at h
  · cases h
  · split at h
    · cases h
    · rename_i hcnt
      obtain ⟨it0, hmem, hp⟩ := countWhere_pos_ex hcnt
      refine ⟨⟨it0, hmem, by simpa using hp⟩, ?_⟩
      injection h with h2
      exact h2.symm

/-- Anatomy of a committed return transaction: the fail-fast read found a
loan pointer `lid` on the requested item, and the new store closes loan
`lid` and clears the pointer of the matching item. -/
theorem returnTx_ok_elim {s : Store} {itemId now : Nat} {s2 : Store}
    (h : returnTx s itemId now = .ok s2) :
    ∃ lid,
      (∃ it0 ∈ s.items, it0.id = itemId ∧ it0.currentLoanId = some lid) ∧
      s2 = { s with
        loans := updateWhere (fun l => l.id = lid)
          (fun l => { l with returnedAt := some now }) s.loans
        items := updateWhere
          (fun j => j.id = itemId ∧ j.currentLoanId = some lid)
          (fun j => { j with currentLoanId := none }) s.items } := by
  unfold returnTx at h
  split at h
  · cases h
  · rename_i lid heq
    split at h
    · cases h
    · split at h
      · cases h
      · rename_i hcnt
        obtain ⟨it0, hmem, hp⟩ := countWhere_pos_ex hcnt
        refine ⟨lid, ⟨it0, hmem, by simpa using hp⟩, ?_⟩
        injection h with h2
        exact h2.symm

/-! ## Invariant preservation -/

theorem eq_singleton_of_mem_of_length_le_one {α : Type} {l : List α} {a : α}
    (ha : a ∈ l) (h : l.length ≤ 1) : l = [a] := by
  cases l with
  | nil => cases ha
  | cons b bs =>
    cases bs with
    | nil =>
      rcases List.mem_singleton.mp ha with rfl
      rfl
    | cons c cs => simp at h

/-- Stores with identical item and loan tables satisfy the same
invariant. -/
theorem invariant_keep {s s2 : Store} (hitems : s2.items = s.items)
    (hloans : s2.loans = s.loans) (hinv : Invariant s) : Invariant s2 := by
  intro it hit
  rw [hitems] at hit
  have h := hinv it hit
  unfold ItemInv openLoansFor at h ⊢
  rw [hloans]
  exact h

/-- Creating an item preserves the loan-state invariant: the fresh item
starts available and no loan can reference its fresh id. -/
theorem itemCreate_invariant {s : Store} {t : String} {tid : Nat}
    {r : Option String} {s2 : Store} (hwf : WF s) (hinv : Invariant s)
    (h : itemCreate s t tid r = .ok s2) : Invariant s2 := by
  obtain ⟨_, _, _, _, hfk1, _, _, _, hci, _⟩ := hwf
  unfold itemCreate at h
  split at h
  · cases h
  · injection h with h2
    subst h2
    intro it2 hit2
    rcases List.mem_append.mp hit2 with hold | hnew
    · have h3 := hinv it2 hold
      unfold ItemInv openLoansFor at h3 ⊢
      exact h3
    · rcases List.mem_singleton.mp hnew with rfl
      have hopen : openLoansFor s s.nextItemId = [] := by
        unfold openLoansFor
        rw [List.filter_eq_nil_iff]
        intro l hl
        obtain ⟨it, hit, hid⟩ := hfk1 l hl
        have := hci it hit
        simp only [decide_eq_true_eq, not_and]
        intro hbad
        omega
      refine ⟨?_, ?_, ?_⟩
      · intro lid hlid
        cases hlid
      · intro _
        unfold openLoansFor at hopen ⊢
        exact hopen
      · unfold openLoansFor at hopen ⊢
        rw [hopen]
        exact Nat.zero_le 1

/-- Deleting an item preserves the invariant: its loans go with it, and
surviving items keep exactly their previous open loans. -/
theorem itemDelete_invariant {s : Store} {did : Nat} {s2 : Store}
    (hinv : Invariant s) (h : itemDelete s did = .ok s2) : Invariant s2 := by
  unfold itemDelete at h
  split at h
  · cases h
  · injection h with h2
    subst h2
    intro it2 hit2
    obtain ⟨hold, hne⟩ := List.mem_filter.mp hit2
    have hne2 : ¬ it2.id = did := by simpa using hne
    have h3 := hinv it2 hold
    have hsame : openLoansFor { s with
        items := s.items.filter fun it => ¬ it.id = did
        loans := s.loans.filter fun l => ¬ l.itemId = did
        links := s.links.filter fun pr => ¬ pr.1 = did } it2.id =
        openLoansFor s it2.id := by
      unfold openLoansFor
      show (s.loans.filter fun l => ¬ l.itemId = did).filter _ = _
      rw [List.filter_filter]
      refine List.filter_congr fun l _ => ?_
      by_cases hp : l.itemId = it2.id ∧ l.returnedAt = none
      · simp [hp.1, hp.2, hne2]
      · rw [decide_eq_false hp]
        simp
    refine ⟨?_, ?_, ?_⟩
    · intro lid hlid
      obtain ⟨l, hl, hlp⟩ := h3.1 lid hlid
      refine ⟨l, List.mem_filter.mpr ⟨hl, ?_⟩, hlp⟩
      have : ¬ l.itemId = did := by
        rw [hlp.2.1]
        exact hne2
      simpa using this
    · intro hnone
      rw [hsame]
      exact h3.2.1 hnone
    · rw [hsame]
      exact h3.2.2

/-- A committed checkout preserves the invariant: the target item was
available (no open loan), and gains exactly the one fresh open loan. -/
theorem checkoutTx_invariant {s : Store} {itemId : Nat} {pn : String}
    {now : Nat} {s2 : Store} (hwf : WF s) (hinv : Invariant s)
    (h : checkoutTx s itemId pn now = .ok s2) : Invariant s2 := by
  obtain ⟨⟨it0, hm0, hid0, hav0⟩, rfl⟩ := checkoutTx_ok_elim h
  have hdi := hwf.2.2.1
  intro it2 hit2
  obtain ⟨a, ha, rfl⟩ := of_mem_updateWhere hit2
  by_cases hp : a.id = itemId ∧ a.currentLoanId = none
  · rw [if_pos (decide_eq_true hp)]
    have hopen : openLoansFor s a.id = [] := (hinv a ha).2.1 hp.2
    refine ⟨?_, ?_, ?_⟩
    · intro lid hlid
      simp only [Option.toList_some, List.mem_singleton] at hlid
      subst hlid
      exact ⟨⟨s.nextLoanId, itemId, pn, now, none⟩,
        List.mem_append_right _ (List.mem_singleton.mpr rfl),
        rfl, by simp [hp.1], rfl⟩
    · intro hcon
      simp at hcon
    · show (List.filter (fun l => decide (l.itemId = a.id ∧ l.returnedAt = none))
        (s.loans ++ [⟨s.nextLoanId, itemId, pn, now, none⟩])).length ≤ 1
      rw [List.filter_append, List.length_append]
      unfold openLoansFor at hopen
      rw [hopen]
      simpa using List.length_filter_le
        (fun l => decide (l.itemId = a.id ∧ l.returnedAt = none))
        [(⟨s.nextLoanId, itemId, pn, now, none⟩ : Loan)]
  · rw [if_neg (by simpa using decide_eq_false hp)]
    have hane : ¬ a.id = itemId := by
      intro hae
      have haeq : a = it0 := distinctKeys_eq_of_key hdi ha hm0 (hae.trans hid0.symm)
      exact hp ⟨hae, haeq ▸ hav0⟩
    have hfil : List.filter (fun l =>
        decide (l.itemId = a.id ∧ l.returnedAt = none))
        [(⟨s.nextLoanId, itemId, pn, now, none⟩ : Loan)] = [] := by
      simp only [List.filter, decide_eq_true_eq]
      rw [decide_eq_false]
      intro hcon
      exact hane (hcon.1.symm)
    have hsplit : openLoansFor { s with
        loans := s.loans ++ [⟨s.nextLoanId, itemId, pn, now, none⟩]
        items := updateWhere (fun j => j.id = itemId ∧ j.currentLoanId = none)
          (fun j => { j with currentLoanId := some s.nextLoanId }) s.items
        nextLoanId := s.nextLoanId + 1 } a.id = openLoansFor s a.id := by
      unfold openLoansFor
      show List.filter _ (s.loans ++ _) = _
      rw [List.filter_append, hfil, List.append_nil]
    have h3 := hinv a ha
    refine ⟨?_, ?_, ?_⟩
    · intro lid hlid
      obtain ⟨l, hl, hlp⟩ := h3.1 lid hlid
      exact ⟨l, List.mem_append_left _ hl, hlp⟩
    · intro hnone
      rw [hsplit]
      exact h3.2.1 hnone
    · rw [hsplit]
      exact h3.2.2

theorem length_filter_map_le {α : Type} {p : α → Bool} {g : α → α}
    {l : List α} (h : ∀ a ∈ l, p (g a) = true → p a = true) :
    (List.filter p (l.map g)).length ≤ (List.filter p l).length := by
  induction l with
  | nil => simp
  | cons a as ih =>
    simp only [List.map_cons, List.filter_cons]
    have ih2 := ih fun b hb => h b (List.mem_cons_of_mem a hb)
    by_cases hga : p (g a) = true
    · rw [if_pos hga, if_pos (h a (List.mem_cons_self a as) hga)]
      simpa using Nat.succ_le_succ ih2
    · rw [if_neg hga]
      by_cases hpa : p a = true
      · rw [if_pos hpa]
        simp only [List.length_cons]
        exact Nat.le_succ_of_le ih2
      · rw [if_neg hpa]
        exact ih2

/-- A committed return preserves the invariant: the single open loan of
the target item is closed and its pointer cleared; every other item's
loans are untouched. -/
theorem returnTx_invariant {s : Store} {itemId now : Nat} {s2 : Store}
    (hwf : WF s) (hinv : Invariant s)
    (h : returnTx s itemId now = .ok s2) : Invariant s2 := by
  obtain ⟨lid, ⟨it0, hm0, hid0, hln0⟩, rfl⟩ := returnTx_ok_elim h
  have hdi := hwf.2.2.1
  have hdl := hwf.2.2.2.1
  obtain ⟨l0, hl0, hl0id, hl0item, hl0open⟩ :=
    (hinv it0 hm0).1 lid (by simp [hln0])
  have hmem_open : l0 ∈ openLoansFor s it0.id :=
    List.mem_filter.mpr ⟨hl0, by simp [hl0item, hl0open]⟩
  have hsingle : openLoansFor s it0.id = [l0] :=
    eq_singleton_of_mem_of_length_le_one hmem_open (hinv it0 hm0).2.2
  intro it2 hit2
  obtain ⟨a, ha, rfl⟩ := of_mem_updateWhere hit2
  by_cases hp : a.id = itemId ∧ a.currentLoanId = some lid
  · rw [if_pos (decide_eq_true hp)]
    have haeq : a = it0 := distinctKeys_eq_of_key hdi ha hm0 (hp.1.trans hid0.symm)
    have hopen2 : List.filter
        (fun l => decide (l.itemId = a.id ∧ l.returnedAt = none))
        (updateWhere (fun l => l.id = lid)
          (fun l => { l with returnedAt := some now }) s.loans) = [] := by
      rw [List.filter_eq_nil_iff]
      intro x hx
      obtain ⟨l, hl, rfl⟩ := of_mem_updateWhere hx
      by_cases hid : l.id = lid
      · rw [if_pos (decide_eq_true hid)]
        simp
      · rw [if_neg (by simp [hid])]
        simp only [decide_eq_true_eq, not_and]
        intro hitem hopen
        have hmem : l ∈ openLoansFor s it0.id :=
          List.mem_filter.mpr ⟨hl, by simp [haeq ▸ hitem, hopen]⟩
        rw [hsingle] at hmem
        rcases List.mem_singleton.mp hmem with rfl
        exact hid hl0id
    refine ⟨?_, ?_, ?_⟩
    · intro lid2 hlid2
      simp at hlid2
    · intro _
      exact hopen2
    · show (List.filter (fun l => decide (l.itemId = a.id ∧ l.returnedAt = none))
        (updateWhere (fun l => l.id = lid)
          (fun l => { l with returnedAt := some now }) s.loans)).length ≤ 1
      rw [hopen2]
      simp
  · rw [if_neg (by simp [hp])]
    have hane : ¬ a.id = itemId := by
      intro hae
      exact hp ⟨hae,
        (distinctKeys_eq_of_key hdi ha hm0 (hae.trans hid0.symm)).symm ▸ hln0⟩
    have h3 := hinv a ha
    have hlnot : ∀ l ∈ s.loans, l.itemId = a.id → ¬ l.id = lid := by
      intro l hl hitem hlid
      have hleq : l = l0 := distinctKeys_eq_of_key hdl hl hl0 (hlid.trans hl0id.symm)
      subst hleq
      exact hane ((hitem.symm.trans hl0item).trans hid0)
    refine ⟨?_, ?_, ?_⟩
    · intro lid2 hlid2
      obtain ⟨l, hl, hlp⟩ := h3.1 lid2 hlid2
      exact ⟨l, mem_updateWhere_neg hl
        (decide_eq_false (hlnot l hl hlp.2.1)), hlp⟩
    · intro hnone
      show List.filter (fun l => decide (l.itemId = a.id ∧ l.returnedAt = none))
        (updateWhere (fun l => l.id = lid)
          (fun l => { l with returnedAt := some now }) s.loans) = []
      rw [List.filter_eq_nil_iff]
      intro x hx
      obtain ⟨l, hl, rfl⟩ := of_mem_updateWhere hx
      by_cases hlid : l.id = lid
      · rw [if_pos (decide_eq_true hlid)]
        simp
      · rw [if_neg (by simp [hlid])]
        simp only [decide_eq_true_eq, not_and]
        intro hitem hopen
        have hmem : l ∈ openLoansFor s a.id :=
          List.mem_filter.mpr ⟨hl, by simp [hitem, hopen]⟩
        rw [h3.2.1 hnone] at hmem
        cases hmem
    · show (List.filter (fun l => decide (l.itemId = a.id ∧ l.returnedAt = none))
        (updateWhere (fun l => l.id = lid)
          (fun l => { l with returnedAt := some now }) s.loans)).length ≤ 1
      have hmono : ∀ l ∈ s.loans,
          (fun l2 => decide (l2.itemId = a.id ∧ l2.returnedAt = none))
            ((fun l2 => if decide (l2.id = lid) = true
              then { l2 with returnedAt := some now } else l2) l) = true →
          (fun l2 => decide (l2.itemId = a.id ∧ l2.returnedAt = none)) l
            = true := by
        intro l _ hpg
        beta_reduce at hpg ⊢
        by_cases hlid : l.id = lid
        · rw [if_pos (by simp [hlid])] at hpg
          simp at hpg
        · rw [if_neg (by simp [hlid])] at hpg
          exact hpg
      exact le_trans (length_filter_map_le hmono) h3.2.2

theorem itemTypeCreate_invariant {s : Store} {code name : String} {s2 : Store}
    (hinv : Invariant s) (h : itemTypeCreate s code name = .ok s2) :
    Invariant s2 := by
  unfold itemTypeCreate at h
  split at h
  · cases h
  · injection h with h2
    subst h2
    exact invariant_keep rfl rfl hinv

theorem categoryCreate_invariant {s : Store} {code name : String}
    {parentId : Option Nat} {s2 : Store} (hinv : Invariant s)
    (h : categoryCreate s code name parentId = .ok s2) : Invariant s2 := by
  unfold categoryCreate at h
  split at h
  · cases h
  · split at h
    · cases h
    · injection h with h2
      subst h2
      exact invariant_keep rfl rfl hinv

theorem itemConnectCategory_invariant {s : Store} {itemId categoryId : Nat}
    {s2 : Store} (hinv : Invariant s)
    (h : itemConnectCategory s itemId categoryId = .ok s2) : Invariant s2 := by
  unfold itemConnectCategory at h
  split at h
  · cases h
  · split at h
    · cases h
    · split at h
      · injection h with h2
        subst h2
        exact hinv
      · injection h with h2
        subst h2
        exact invariant_keep rfl rfl hinv

theorem itemDisconnectCategory_invariant {s : Store} {itemId categoryId : Nat}
    {s2 : Store} (hinv : Invariant s)
    (h : itemDisconnectCategory s itemId categoryId = .ok s2) : Invariant s2 := by
  unfold itemDisconnectCategory at h
  split at h
  · cases h
  · injection h with h2
    subst h2
    exact invariant_keep rfl rfl hinv

theorem finish_snd_invariant {s : Store} {r : Except DbErr Store}
    (hinv : Invariant s) (hr : ∀ s2, r = .ok s2 → Invariant s2) :
    Invariant (finish s r).2 := by
  match r with
  | .error (.known c m) => exact hinv
  | .error (.generic m) => exact hinv
  | .ok s2 => exact hr s2 rfl

/-- Every branch of the action switch preserves the loan-state
invariant. -/
theorem runAction_invariant (s : Store) (now : Nat) (a : String) (p : Payload)
    (hwf : WF s) (hinv : Invariant s) : Invariant (runAction s now a p).2 := by
  unfold runAction
  split
  · split
    · exact hinv
    · split
      · exact hinv
      · exact finish_snd_invariant hinv fun s2 h => itemTypeCreate_invariant hinv h
  · split
    · exact hinv
    · split
      · exact hinv
      · exact finish_snd_invariant hinv fun s2 h => categoryCreate_invariant hinv h
  · split
    · exact hinv
    · split
      · exact hinv
      · exact finish_snd_invariant hinv fun s2 h => itemCreate_invariant hwf hinv h
  · split
    · exact hinv
    · split
      · exact hinv
      · exact finish_snd_invariant hinv fun s2 h =>
          itemConnectCategory_invariant hinv h
  · split
    · exact hinv
    · split
      · exact hinv
      · exact finish_snd_invariant hinv fun s2 h =>
          itemDisconnectCategory_invariant hinv h
  · split
    · exact hinv
    · split
      · exact hinv
      · exact finish_snd_invariant hinv fun s2 h =>
          checkoutTx_invariant hwf hinv h
  · split
    · exact hinv
    · exact finish_snd_invariant hinv fun s2 h => returnTx_invariant hwf hinv h
  · split
    · exact hinv
    · exact finish_snd_invariant hinv fun s2 h => itemDelete_invariant hinv h
  · exact hinv

/-- Every request path through the handler preserves the loan-state
invariant. -/
theorem handler_invariant (envToken : Option String) (now : Nat)
    (req : Request) (s : Store) (hwf : WF s) (hinv : Invariant s) :
    Invariant (handler envToken now req s).2 := by
  unfold handler
  split
  · exact hinv
  · split
    · exact hinv
    · split
      · exact hinv
      · split
        · exact hinv
        · split
          · split
            · exact hinv
            · exact runAction_invariant s now _ _ hwf hinv
          · exact hinv

/-! ## Well-formedness preservation for the two transactions -/

theorem updateWhere_exists_same_key {α : Type} (key : α → Nat) (p : α → Bool)
    (f : α → α) {l : List α} (hk : ∀ a, key (f a) = key a) {a : α}
    (ha : a ∈ l) : ∃ b ∈ updateWhere p f l, key b = key a := by
  by_cases hp : p a = true
  · exact ⟨f a, mem_updateWhere_pos ha hp, hk a⟩
  · refine ⟨a, mem_updateWhere_neg ha ?_, rfl⟩
    simpa using hp

theorem checkoutTx_WF {s : Store} {itemId : Nat} {pn : String} {now : Nat}
    {s2 : Store} (hwf : WF s) (h : checkoutTx s itemId pn now = .ok s2) :
    WF s2 := by
  obtain ⟨⟨it0, hm0, hid0, hav0⟩, rfl⟩ := checkoutTx_ok_elim h
  obtain ⟨h1, h2, h3, h4, h5, h6, h7, h8, h9, h10⟩ := hwf
  refine ⟨h1, h2, ?_, ?_, ?_, ?_, h7, h8, ?_, ?_⟩
  · exact distinctKeys_updateWhere (fun a => rfl) h3
  · unfold distinctKeys at h4 ⊢
    rw [List.pairwise_append]
    refine ⟨h4, List.pairwise_singleton _ _, ?_⟩
    intro l hl b hb
    rcases List.mem_singleton.mp hb with rfl
    exact Nat.ne_of_lt (h10 l hl)
  · intro l hl
    rcases List.mem_append.mp hl with hl1 | hl2
    · obtain ⟨it, hit, hid⟩ := h5 l hl1
      obtain ⟨b, hb, hbk⟩ := updateWhere_exists_same_key
        (fun j : Item => j.id)
        (fun j => j.id = itemId ∧ j.currentLoanId = none)
        (fun j => { j with currentLoanId := some s.nextLoanId })
        (fun a => rfl) hit
      exact ⟨b, hb, hbk.trans hid⟩
    · rcases List.mem_singleton.mp hl2 with rfl
      refine ⟨{ it0 with currentLoanId := some s.nextLoanId },
        mem_updateWhere_pos hm0 (by simp [hid0, hav0]), hid0⟩
  · intro it2 hit2 lid hlid
    obtain ⟨a, ha, rfl⟩ := of_mem_updateWhere hit2
    by_cases hp : a.id = itemId ∧ a.currentLoanId = none
    · rw [if_pos (decide_eq_true hp)] at hlid
      simp only [Option.toList_some, List.mem_singleton] at hlid
      subst hlid
      exact ⟨⟨s.nextLoanId, itemId, pn, now, none⟩,
        List.mem_append_right _ (List.mem_singleton.mpr rfl), rfl⟩
    · rw [if_neg (by simp [hp])] at hlid
      obtain ⟨l, hl, hlid2⟩ := h6 a ha lid hlid
      exact ⟨l, List.mem_append_left _ hl, hlid2⟩
  · intro it2 hit2
    obtain ⟨a, ha, rfl⟩ := of_mem_updateWhere hit2
    by_cases hp : a.id = itemId ∧ a.currentLoanId = none
    · rw [if_pos (decide_eq_true hp)]
      exact h9 a ha
    · rw [if_neg (by simp [hp])]
      exact h9 a ha
  · intro l hl
    rcases List.mem_append.mp hl with hl1 | hl2
    · exact Nat.lt_succ_of_lt (h10 l hl1)
    · rcases List.mem_singleton.mp hl2 with rfl
      exact Nat.lt_succ_self _

theorem returnTx_WF {s : Store} {itemId now : Nat} {s2 : Store}
    (hwf : WF s) (h : returnTx s itemId now = .ok s2) : WF s2 := by
  obtain ⟨lid, ⟨it0, hm0, hid0, hln0⟩, rfl⟩ := returnTx_ok_elim h
  obtain ⟨h1, h2, h3, h4, h5, h6, h7, h8, h9, h10⟩ := hwf
  refine ⟨h1, h2, ?_, ?_, ?_, ?_, h7, h8, ?_, ?_⟩
  · exact distinctKeys_updateWhere (fun a => rfl) h3
  · exact distinctKeys_updateWhere (fun a => rfl) h4
  · intro l2 hl2
    obtain ⟨l, hl, rfl⟩ := of_mem_updateWhere hl2
    obtain ⟨it, hit, hid⟩ := h5 l hl
    obtain ⟨b, hb, hbk⟩ := updateWhere_exists_same_key
      (fun j : Item => j.id)
      (fun j => j.id = itemId ∧ j.currentLoanId = some lid)
      (fun j => { j with currentLoanId := none })
      (fun a => rfl) hit
    by_cases hll : l.id = lid
    · rw [if_pos (decide_eq_true hll)]
      exact ⟨b, hb, hbk.trans hid⟩
    · rw [if_neg (by simp [hll])]
      exact ⟨b, hb, hbk.trans hid⟩
  · intro it2 hit2 lid2 hlid2
    obtain ⟨a, ha, rfl⟩ := of_mem_updateWhere hit2
    by_cases hp : a.id = itemId ∧ a.currentLoanId = some lid
    · rw [if_pos (decide_eq_true hp)] at hlid2
      simp at hlid2
    · rw [if_neg (by simp [hp])] at hlid2
      obtain ⟨l, hl, hlid3⟩ := h6 a ha lid2 hlid2
      by_cases hll : l.id = lid
      · exact ⟨{ l with returnedAt := some now },
          mem_updateWhere_pos hl (decide_eq_true hll), hlid3⟩
      · exact ⟨l, mem_updateWhere_neg hl (decide_eq_false hll), hlid3⟩
  · intro it2 hit2
    obtain ⟨a, ha, rfl⟩ := of_mem_updateWhere hit2
    by_cases hp : a.id = itemId ∧ a.currentLoanId = some lid
    · rw [if_pos (decide_eq_true hp)]
      exact h9 a ha
    · rw [if_neg (by simp [hp])]
      exact h9 a ha
  · intro l2 hl2
    obtain ⟨l, hl, rfl⟩ := of_mem_updateWhere hl2
    by_cases hll : l.id = lid
    · rw [if_pos (decide_eq_true hll)]
      exact h10 l hl
    · rw [if_neg (by simp [hll])]
      exact h10 l hl

/-! ## Dispatch equations -/

theorem runAction_createItemType_eq (s : Store) (now : Nat) (p : Payload) :
    runAction s now "createItemType" p =
      if strBlank p.code then (errResp 400 "Item type code is required.", s)
      else if strBlank p.name then (errResp 400 "Item type name is required.", s)
      else finish s (itemTypeCreate s (p.code.getD "") (p.name.getD "")) := rfl

theorem runAction_createCategory_eq (s : Store) (now : Nat) (p : Payload) :
    runAction s now "createCategory" p =
      if strBlank p.code then (errResp 400 "Category code is required.", s)
      else if strBlank p.name then (errResp 400 "Category name is required.", s)
      else finish s (categoryCreate s (p.code.getD "") (p.name.getD "") p.parentId) := rfl

theorem runAction_createItem_eq (s : Store) (now : Nat) (p : Payload) :
    runAction s now "createItem" p =
      if strBlank p.title then (errResp 400 "Item title is required.", s)
      else if p.itemTypeId.isNone then
        (errResp 400 "Item type ID is required and must be a number.", s)
      else finish s (itemCreate s (p.title.getD "") (p.itemTypeId.getD 0)
        p.requestedBy) := rfl

theorem runAction_linkCategory_eq (s : Store) (now : Nat) (p : Payload) :
    runAction s now "linkCategory" p =
      if p.itemId.isNone then
        (errResp 400 "Item ID is required and must be a number.", s)
      else if p.categoryId.isNone then
        (errResp 400 "Category ID is required and must be a number.", s)
      else finish s (itemConnectCategory s (p.itemId.getD 0)
        (p.categoryId.getD 0)) := rfl

theorem runAction_unlinkCategory_eq (s : Store) (now : Nat) (p : Payload) :
    runAction s now "unlinkCategory" p =
      if p.itemId.isNone then
        (errResp 400 "Item ID is required and must be a number.", s)
      else if p.categoryId.isNone then
        (errResp 400 "Category ID is required and must be a number.", s)
      else finish s (itemDisconnectCategory s (p.itemId.getD 0)
        (p.categoryId.getD 0)) := rfl

theorem runAction_checkout_eq (s : Store) (now : Nat) (p : Payload) :
    runAction s now "checkout" p =
      if p.itemId.isNone then
        (errResp 400 "Item ID is required and must be a number.", s)
      else if strBlank p.patronName then
        (errResp 400 "Patron name is required.", s)
      else finish s (checkoutTx s (p.itemId.getD 0) (p.patronName.getD "")
        now) := rfl

theorem runAction_return_eq (s : Store) (now : Nat) (p : Payload) :
    runAction s now "return" p =
      if p.itemId.isNone then
        (errResp 400 "Item ID is required and must be a number.", s)
      else finish s (returnTx s (p.itemId.getD 0) now) := rfl

theorem runAction_deleteItem_eq (s : Store) (now : Nat) (p : Payload) :
    runAction s now "deleteItem" p =
      if p.id.isNone then
        (errResp 400 "Item ID is required and must be a number.", s)
      else finish s (itemDelete s (p.id.getD 0)) := rfl

theorem runAction_unknown {a : String} (h : a ∉ knownActions)
    (s : Store) (now : Nat) (p : Payload) :
    runAction s now a p = (errResp 400 "Unknown action", s) := by
  unfold runAction
  split <;> simp_all [knownActions]

/-! ## Claim theorems -/

/-- C1 counterexample: in `sampleStore`, item 2 is AVAILABLE
(`currentLoanId` null) and the patron name `" "` is a non-empty string,
yet the checkout does not succeed — it is rejected by validation with
400 "Patron name is required." and no loan row is created.  The claim's
"non-empty patronName" condition is therefore too weak: the code
requires the name to be non-empty after trimming. -/
theorem c1_checkout_blank_patron_counterexample :
    ((sampleStore.items.find? fun j => j.id = 2).map
      fun j => j.currentLoanId) = some none ∧
    ¬ (" " : String) = "" ∧
    runAction sampleStore 77 "checkout"
      { itemId := some 2, patronName := some " " } =
      (errResp 400 "Patron name is required.", sampleStore) := by
  decide

/-- C1 (amended): for every well-formed store and every stored item with
null `currentLoanId`, a checkout with a patron name that is non-empty
after trimming succeeds: the response is the 200 snapshot, exactly one
new Loan row (open, with the fresh id, bound to the item) is appended,
the item's `currentLoanId` is set to that new loan's id, and no other
table changes. -/
theorem checkout_available_succeeds (s : Store) (now itemId : Nat)
    (pn : String) (hwf : WF s) (it : Item) (hmem : it ∈ s.items)
    (hid : it.id = itemId) (hav : it.currentLoanId = none)
    (hpn : ¬ jsTrim pn = "") :
    ∃ s2, runAction s now "checkout"
        { itemId := some itemId, patronName := some pn } = (okResp s2, s2) ∧
      s2.loans = s.loans ++ [⟨s.nextLoanId, itemId, pn, now, none⟩] ∧
      (∀ j ∈ s2.items, j.id = itemId → j.currentLoanId = some s.nextLoanId) ∧
      s2.itemTypes = s.itemTypes ∧ s2.categories = s.categories ∧
      s2.links = s.links := by
  have hd := hwf.2.2.1
  rw [runAction_checkout_eq]
  rw [if_neg (by simp), if_neg (by simpa [strBlank] using hpn)]
  rw [show ({ itemId := some itemId, patronName := some pn } :
    Payload).itemId.getD 0 = itemId from rfl]
  rw [show ({ itemId := some itemId, patronName := some pn } :
    Payload).patronName.getD "" = pn from rfl]
  rw [checkoutTx_success pn now hd hmem hid hav]
  refine ⟨_, rfl, rfl, ?_, rfl, rfl, rfl⟩
  intro j hj hjid
  obtain ⟨a, ha, rfl⟩ := of_mem_updateWhere hj
  by_cases hp : a.id = itemId
  · rw [if_pos (decide_eq_true hp)]
  · rw [if_neg (by simp [hp])] at hjid ⊢
    exact absurd hjid hp

/-- C1 witness: the amended theorem applied to `sampleStore`, item 2 and
patron "Bob". -/
theorem checkout_available_succeeds_witness :
    ∃ s2, runAction sampleStore 77 "checkout"
        { itemId := some 2, patronName := some "Bob" } = (okResp s2, s2) ∧
      s2.loans = sampleStore.loans ++ [⟨1002, 2, "Bob", 77, none⟩] ∧
      (∀ j ∈ s2.items, j.id = 2 → j.currentLoanId = some 1002) ∧
      s2.itemTypes = sampleStore.itemTypes ∧
      s2.categories = sampleStore.categories ∧
      s2.links = sampleStore.links :=
  checkout_available_succeeds sampleStore 77 2 "Bob" (by decide)
    ⟨2, "Laptop Pro X", 2, some "Ford Prefect", none⟩ (by decide) rfl rfl
    (by decide)

/-- C2: for every well-formed store and every stored item whose
`currentLoanId` is non-null, a checkout request for it (with a payload
passing field validation) fails with the "already loaned" conflict and
the returned store is exactly the old one — the loan created inside the
transaction does not survive the rollback and the item keeps its
pointer. -/
theorem checkout_onloan_fails (s : Store) (now itemId : Nat) (pn : String)
    (hwf : WF s) (it : Item) (hmem : it ∈ s.items) (hid : it.id = itemId)
    (lid : Nat) (hln : it.currentLoanId = some lid)
    (hpn : ¬ jsTrim pn = "") :
    runAction s now "checkout" { itemId := some itemId, patronName := some pn }
      = (errResp 400 "Item already loaned or does not exist", s) := by
  have hd := hwf.2.2.1
  rw [runAction_checkout_eq]
  rw [if_neg (by simp), if_neg (by simpa [strBlank] using hpn)]
  rw [show ({ itemId := some itemId, patronName := some pn } :
    Payload).itemId.getD 0 = itemId from rfl]
  rw [checkoutTx_conflict _ now hd hmem hid hln]
  rfl

/-- C2 witness: checking out the already-loaned item 1 of `sampleStore`
fails with the conflict error and leaves the store untouched. -/
theorem checkout_onloan_fails_witness :
    runAction sampleStore 77 "checkout"
      { itemId := some 1, patronName := some "Mallory" } =
      (errResp 400 "Item already loaned or does not exist", sampleStore) :=
  checkout_onloan_fails sampleStore 77 1 "Mallory" (by decide)
    ⟨1, "The Guide", 1, none, some 1001⟩ (by decide) rfl 1001 rfl (by decide)

/-- C3: over any well-formed store, a `return` request fails exactly when
no stored item carries the requested id with a non-null `currentLoanId`
(covering both "item missing" and "nothing to return"), and the failure
leaves the store unchanged; when the item exists with a loan pointer the
request succeeds, that one loan gets `returnedAt` set, the item's
pointer is cleared, and nothing else changes. -/
theorem return_spec (s : Store) (now itemId : Nat) (hwf : WF s) :
    ((∀ j ∈ s.items, j.id = itemId → j.currentLoanId = none) →
      runAction s now "return" { itemId := some itemId } =
        (errResp 400 "No active loan for this item", s)) ∧
    (∀ it ∈ s.items, it.id = itemId → ∀ lid, it.currentLoanId = some lid →
      ∃ s2, runAction s now "return" { itemId := some itemId } =
          (okResp s2, s2) ∧
        s2.loans = updateWhere (fun l => l.id = lid)
          (fun l => { l with returnedAt := some now }) s.loans ∧
        (∃ l ∈ s2.loans, l.id = lid ∧ l.returnedAt = some now) ∧
        s2.items = updateWhere (fun j => j.id = itemId)
          (fun j => { j with currentLoanId := none }) s.items ∧
        (∀ j ∈ s2.items, j.id = itemId → j.currentLoanId = none) ∧
        s2.itemTypes = s.itemTypes ∧ s2.categories = s.categories ∧
        s2.links = s.links) := by
  have hd := hwf.2.2.1
  have hdl := hwf.2.2.2.1
  have hfk := hwf.2.2.2.2.2.1
  constructor
  · intro hnone
    rw [runAction_return_eq, if_neg (by simp)]
    rw [show ({ itemId := some itemId } : Payload).itemId.getD 0 = itemId
      from rfl]
    rw [returnTx_noloan now hnone]
    rfl
  · intro it hmem hid lid hln
    rw [runAction_return_eq, if_neg (by simp)]
    rw [show ({ itemId := some itemId } : Payload).itemId.getD 0 = itemId
      from rfl]
    rw [returnTx_success now hd hfk hmem hid hln]
    obtain ⟨l0, hl0, hl0id⟩ := hfk it hmem lid (by simp [hln])
    refine ⟨_, rfl, rfl, ?_, rfl, ?_, rfl, rfl, rfl⟩
    · exact ⟨{ l0 with returnedAt := some now },
        mem_updateWhere_pos hl0 (decide_eq_true hl0id), hl0id, rfl⟩
    · intro j hj hjid
      obtain ⟨a, ha, rfl⟩ := of_mem_updateWhere hj
      by_cases hp : a.id = itemId
      · rw [if_pos (decide_eq_true hp)]
      · rw [if_neg (by simp [hp])] at hjid ⊢
        exact absurd hjid hp

/-- C3 witness: the two directions at `sampleStore` — returning item 2
(no active loan) fails leaving the store unchanged, and returning item 1
closes loan 1001 and clears the pointer. -/
theorem return_spec_witness :
    ((∀ j ∈ sampleStore.items, j.id = 2 → j.currentLoanId = none) →
      runAction sampleStore 88 "return" { itemId := some 2 } =
        (errResp 400 "No active loan for this item", sampleStore)) ∧
    (∀ it ∈ sampleStore.items, it.id = 1 → ∀ lid,
      it.currentLoanId = some lid →
      ∃ s2, runAction sampleStore 99 "return" { itemId := some 1 } =
          (okResp s2, s2) ∧
        s2.loans = updateWhere (fun l => l.id = lid)
          (fun l => { l with returnedAt := some 99 }) sampleStore.loans ∧
        (∃ l ∈ s2.loans, l.id = lid ∧ l.returnedAt = some 99) ∧
        s2.items = updateWhere (fun j => j.id = 1)
          (fun j => { j with currentLoanId := none }) sampleStore.items ∧
        (∀ j ∈ s2.items, j.id = 1 → j.currentLoanId = none) ∧
        s2.itemTypes = sampleStore.itemTypes ∧
        s2.categories = sampleStore.categories ∧
        s2.links = sampleStore.links) :=
  ⟨(return_spec sampleStore 88 2 (by decide)).1,
   (return_spec sampleStore 99 1 (by decide)).2⟩

/-- C8: deleting an existing item answers the 200 snapshot and removes
exactly that item row and every loan row referencing it, leaving item
types, categories and the other items' rows untouched; afterwards no
surviving loan references a missing item. -/
theorem deleteItem_spec (s : Store) (now did : Nat) (hwf : WF s)
    (it : Item) (hmem : it ∈ s.items) (hid : it.id = did) :
    ∃ s2, runAction s now "deleteItem" { id := some did } = (okResp s2, s2) ∧
      s2.items = s.items.filter (fun j => ¬ j.id = did) ∧
      s2.loans = s.loans.filter (fun l => ¬ l.itemId = did) ∧
      s2.itemTypes = s.itemTypes ∧ s2.categories = s.categories ∧
      (∀ l ∈ s2.loans, ∃ j ∈ s2.items, j.id = l.itemId) := by
  have hfk1 := hwf.2.2.2.2.1
  rw [runAction_deleteItem_eq, if_neg (by simp)]
  rw [show ({ id := some did } : Payload).id.getD 0 = did from rfl]
  unfold itemDelete
  rw [if_neg (items_not_all_ne hmem hid)]
  refine ⟨_, rfl, rfl, rfl, rfl, rfl, ?_⟩
  intro l hl
  obtain ⟨hl2, hlne⟩ := List.mem_filter.mp hl
  obtain ⟨j, hj, hjid⟩ := hfk1 l hl2
  refine ⟨j, List.mem_filter.mpr ⟨hj, ?_⟩, hjid⟩
  rw [hjid]
  exact hlne

/-- C8 witness: deleting item 1 of `sampleStore` removes it with its loan
1001 and leaves no orphan loans. -/
theorem deleteItem_spec_witness :
    ∃ s2, runAction sampleStore 5 "deleteItem" { id := some 1 } =
        (okResp s2, s2) ∧
      s2.items = sampleStore.items.filter (fun j => ¬ j.id = 1) ∧
      s2.loans = sampleStore.loans.filter (fun l => ¬ l.itemId = 1) ∧
      s2.itemTypes = sampleStore.itemTypes ∧
      s2.categories = sampleStore.categories ∧
      (∀ l ∈ s2.loans, ∃ j ∈ s2.items, j.id = l.itemId) :=
  deleteItem_spec sampleStore 5 1 (by decide)
    ⟨1, "The Guide", 1, none, some 1001⟩ (by decide) rfl

/-- C4: every request processed by the handler — hence every mutation of
the dispatcher — preserves the loan-state invariant: for each item a
non-null `currentLoanId` points at an open Loan row of that item, a null
`currentLoanId` means the item has no open loan, and at most one open
loan exists per item. -/
theorem dispatcher_preserves_invariant (envToken : Option String)
    (now : Nat) (req : Request) (s : Store) (hwf : WF s)
    (hinv : Invariant s) : Invariant (handler envToken now req s).2 :=
  handler_invariant envToken now req s hwf hinv

/-- C4 witness: the invariant survives a concrete successful checkout of
item 2 on `sampleStore`. -/
theorem dispatcher_preserves_invariant_witness :
    Invariant (handler (some "tok") 77
      { method := "POST", authHeader := some "Bearer tok",
        action := some "checkout",
        payload := some { itemId := some 2, patronName := some "Bob" } }
      sampleStore).2 :=
  dispatcher_preserves_invariant (some "tok") 77
    { method := "POST", authHeader := some "Bearer tok",
      action := some "checkout",
      payload := some { itemId := some 2, patronName := some "Bob" } }
    sampleStore (by decide) (by decide)

/-- C10: with the server token configured (present and non-empty), every
GET request is answered with status 200 and the full snapshot no matter
what the `authorization` header carries, and two GET requests differing
only in that header (or in body fields) get identical responses — only
POST mutations sit behind the bearer token. -/
theorem get_bypasses_auth (tok : String) (htok : ¬ tok = "") (now : Nat)
    (s : Store) (h1 h2 a1 a2 : Option String) (p1 p2 : Option Payload) :
    handler (some tok) now
        { method := "GET", authHeader := h1, action := a1, payload := p1 } s
      = (⟨200, true, none, some (getSnapshot s)⟩, s) ∧
    handler (some tok) now
        { method := "GET", authHeader := h1, action := a1, payload := p1 } s
      = handler (some tok) now
        { method := "GET", authHeader := h2, action := a2, payload := p2 } s := by
  have hmiss : tokenMissing (some tok) = false := by
    simpa [tokenMissing] using htok
  constructor
  · unfold handler
    simp [hmiss, okResp]
  · unfold handler
    simp [hmiss]

/-- C10 witness: a GET with a garbage bearer header and a GET with no
header at all both answer the `sampleStore` snapshot with 200. -/
theorem get_bypasses_auth_witness :
    handler (some "secret") 3
        { method := "GET", authHeader := some "Bearer wrong",
          action := none, payload := none } sampleStore
      = (⟨200, true, none, some (getSnapshot sampleStore)⟩, sampleStore) ∧
    handler (some "secret") 3
        { method := "GET", authHeader := some "Bearer wrong",
          action := none, payload := none } sampleStore
      = handler (some "secret") 3
        { method := "GET", authHeader := none,
          action := none, payload := none } sampleStore :=
  get_bypasses_auth "secret" (by decide) 3 sampleStore
    (some "Bearer wrong") none none none none none

/-- C7 counterexample: the spec's kebab-case action name
`create-item-type` is not a case of the switch — with a fully valid
payload the dispatcher answers 400 "Unknown action" and creates
nothing, so the dispatcher does not execute mutations for the
kebab-case names the claim lists. -/
theorem kebab_action_counterexample :
    runAction sampleStore 0 "create-item-type"
      { code := some "CD", name := some "Compact Disc" } =
      (errResp 400 "Unknown action", sampleStore) ∧
    ¬ ∃ t ∈ (runAction sampleStore 0 "create-item-type"
      { code := some "CD", name := some "Compact Disc" }).2.itemTypes,
      t.code = "CD" := by
  decide

/-- C7 (amended): the switch executes mutations for exactly the eight
camelCase action names `createItemType`, `createCategory`, `createItem`,
`linkCategory`, `unlinkCategory`, `checkout`, `return`, `deleteItem`:
each of the eight can mutate the store on a suitable request, and every
request naming any other action gets the structured 400 "Unknown
action" error with the store unchanged. -/
theorem dispatch_known_actions :
    (∀ (s : Store) (now : Nat) (a : String) (p : Payload),
      a ∉ knownActions →
      runAction s now a p = (errResp 400 "Unknown action", s)) ∧
    (∀ a ∈ knownActions, ∃ (s : Store) (p : Payload) (s2 : Store),
      runAction s 0 a p = (okResp s2, s2) ∧ ¬ s2 = s) := by
  constructor
  · intro s now a p h
    exact runAction_unknown h s now p
  · intro a ha
    simp only [knownActions, List.mem_cons, List.not_mem_nil, or_false] at ha
    rcases ha with rfl | rfl | rfl | rfl | rfl | rfl | rfl | rfl
    · exact ⟨sampleStore, { code := some "CD", name := some "Disc" },
        (runAction sampleStore 0 "createItemType"
          { code := some "CD", name := some "Disc" }).2, by decide, by decide⟩
    · exact ⟨sampleStore, { code := some "NEW", name := some "New" },
        (runAction sampleStore 0 "createCategory"
          { code := some "NEW", name := some "New" }).2, by decide, by decide⟩
    · exact ⟨sampleStore, { title := some "Dune", itemTypeId := some 1 },
        (runAction sampleStore 0 "createItem"
          { title := some "Dune", itemTypeId := some 1 }).2,
        by decide, by decide⟩
    · exact ⟨sampleStore, { itemId := some 2, categoryId := some 101 },
        (runAction sampleStore 0 "linkCategory"
          { itemId := some 2, categoryId := some 101 }).2,
        by decide, by decide⟩
    · exact ⟨sampleStore, { itemId := some 1, categoryId := some 101 },
        (runAction sampleStore 0 "unlinkCategory"
          { itemId := some 1, categoryId := some 101 }).2,
        by decide, by decide⟩
    · exact ⟨sampleStore, { itemId := some 2, patronName := some "Bob" },
        (runAction sampleStore 0 "checkout"
          { itemId := some 2, patronName := some "Bob" }).2,
        by decide, by decide⟩
    · exact ⟨sampleStore, { itemId := some 1 },
        (runAction sampleStore 0 "return" { itemId := some 1 }).2,
        by decide, by decide⟩
    · exact ⟨sampleStore, { id := some 3 },
        (runAction sampleStore 0 "deleteItem" { id := some 3 }).2,
        by decide, by decide⟩

/-- C7 witness: the amended theorem's first half applied to the unknown
action name `dropAllTables`. -/
theorem dispatch_known_actions_witness :
    runAction sampleStore 9 "dropAllTables" { id := some 1 } =
      (errResp 400 "Unknown action", sampleStore) :=
  dispatch_known_actions.1 sampleStore 9 "dropAllTables" { id := some 1 }
    (by decide)

/-- C6 counterexample: no item 99 exists in `sampleStore`, yet a checkout
of it — a request whose referenced record is missing — is answered with
status 400 (the foreign-key failure of the loan insert is not a `P2025`
error), not the claimed 404. -/
theorem checkout_missing_item_status_counterexample :
    (sampleStore.items.all fun j => ¬ j.id = 99) = true ∧
    (runAction sampleStore 0 "checkout"
      { itemId := some 99, patronName := some "Bob" }).1.status = 400 ∧
    ¬ (runAction sampleStore 0 "checkout"
      { itemId := some 99, patronName := some "Bob" }).1.status = 404 := by
  decide

/-- C6 (amended): missing referenced records split by Prisma error class.
Operations that raise `P2025` — updating a missing item in link/unlink,
connecting a missing category, deleting a missing item — are surfaced as
404 "Record not found"; foreign-key violations raised by inserts —
checkout's loan row for a missing item, create-item's `itemTypeId`,
create-category's `parentId` — fail with status 400 instead, leaving the
store unchanged in every case. -/
theorem referential_failure_statuses (s : Store) (now : Nat) :
    (∀ itemId categoryId : Nat,
      (s.items.all fun j => ¬ j.id = itemId) = true →
      runAction s now "linkCategory"
        { itemId := some itemId, categoryId := some categoryId } =
        (errResp 404 "Record not found", s)) ∧
    (∀ itemId categoryId : Nat, (∃ j ∈ s.items, j.id = itemId) →
      (s.categories.all fun c => ¬ c.id = categoryId) = true →
      runAction s now "linkCategory"
        { itemId := some itemId, categoryId := some categoryId } =
        (errResp 404 "Record not found", s)) ∧
    (∀ itemId categoryId : Nat,
      (s.items.all fun j => ¬ j.id = itemId) = true →
      runAction s now "unlinkCategory"
        { itemId := some itemId, categoryId := some categoryId } =
        (errResp 404 "Record not found", s)) ∧
    (∀ did : Nat, (s.items.all fun j => ¬ j.id = did) = true →
      runAction s now "deleteItem" { id := some did } =
        (errResp 404 "Record not found", s)) ∧
    (∀ (itemId : Nat) (pn : String), ¬ jsTrim pn = "" →
      (s.items.all fun j => ¬ j.id = itemId) = true →
      (runAction s now "checkout"
        { itemId := some itemId, patronName := some pn }).1.status = 400 ∧
      (runAction s now "checkout"
        { itemId := some itemId, patronName := some pn }).2 = s) ∧
    (∀ (title : String) (tid : Nat) (r : Option String),
      ¬ jsTrim title = "" →
      (s.itemTypes.all fun t => ¬ t.id = tid) = true →
      (runAction s now "createItem"
        { title := some title, itemTypeId := some tid,
          requestedBy := r }).1.status = 400 ∧
      (runAction s now "createItem"
        { title := some title, itemTypeId := some tid,
          requestedBy := r }).2 = s) ∧
    (∀ (code name : String) (pid : Nat), ¬ jsTrim code = "" →
      ¬ jsTrim name = "" →
      (s.categories.any fun c => c.code = code) = false →
      (s.categories.all fun c => ¬ c.id = pid) = true →
      (runAction s now "createCategory"
        { code := some code, name := some name,
          parentId := some pid }).1.status = 400 ∧
      (runAction s now "createCategory"
        { code := some code, name := some name,
          parentId := some pid }).2 = s) := by
  refine ⟨?_, ?_, ?_, ?_, ?_, ?_, ?_⟩
  · intro itemId categoryId hmiss
    rw [runAction_linkCategory_eq, if_neg (by simp), if_neg (by simp)]
    show finish s (itemConnectCategory s itemId categoryId) = _
    unfold itemConnectCategory
    rw [if_pos hmiss]
    rfl
  · intro itemId categoryId hex hmiss
    obtain ⟨j, hj, hjid⟩ := hex
    rw [runAction_linkCategory_eq, if_neg (by simp), if_neg (by simp)]
    show finish s (itemConnectCategory s itemId categoryId) = _
    unfold itemConnectCategory
    rw [if_neg (items_not_all_ne hj hjid), if_pos hmiss]
    rfl
  · intro itemId categoryId hmiss
    rw [runAction_unlinkCategory_eq, if_neg (by simp), if_neg (by simp)]
    show finish s (itemDisconnectCategory s itemId categoryId) = _
    unfold itemDisconnectCategory
    rw [if_pos hmiss]
    rfl
  · intro did hmiss
    rw [runAction_deleteItem_eq, if_neg (by simp)]
    show finish s (itemDelete s did) = _
    unfold itemDelete
    rw [if_pos hmiss]
    rfl
  · intro itemId pn hpn hmiss
    rw [runAction_checkout_eq, if_neg (by simp),
      if_neg (by simpa [strBlank] using hpn)]
    show ((finish s (checkoutTx s itemId pn now)).1.status = 400 ∧
      (finish s (checkoutTx s itemId pn now)).2 = s)
    unfold checkoutTx
    rw [if_pos hmiss]
    exact ⟨rfl, rfl⟩
  · intro title tid r htitle hmiss
    rw [runAction_createItem_eq, if_neg (by simpa [strBlank] using htitle),
      if_neg (by simp)]
    show ((finish s (itemCreate s title tid r)).1.status = 400 ∧
      (finish s (itemCreate s title tid r)).2 = s)
    unfold itemCreate
    rw [if_pos hmiss]
    exact ⟨rfl, rfl⟩
  · intro code name pid hcode hname hdup hmiss
    rw [runAction_createCategory_eq, if_neg (by simpa [strBlank] using hcode),
      if_neg (by simpa [strBlank] using hname)]
    show ((finish s (categoryCreate s code name (some pid))).1.status = 400 ∧
      (finish s (categoryCreate s code name (some pid))).2 = s)
    unfold categoryCreate
    rw [if_neg (by simp [hdup]), if_pos (by simpa [Option.any] using hmiss)]
    exact ⟨rfl, rfl⟩

/-- C6 witness: the amended theorem at `sampleStore` — link-category on
missing item 99 gets 404, checkout of missing item 99 gets 400. -/
theorem referential_failure_statuses_witness :
    runAction sampleStore 1 "linkCategory"
      { itemId := some 99, categoryId := some 101 } =
      (errResp 404 "Record not found", sampleStore) ∧
    (runAction sampleStore 1 "checkout"
      { itemId := some 99, patronName := some "Bob" }).1.status = 400 :=
  ⟨(referential_failure_statuses sampleStore 1).1 99 101 (by decide),
   ((referential_failure_statuses sampleStore 1).2.2.2.2.1 99 "Bob"
     (by decide) (by decide)).1⟩

theorem updateWhere_append {α : Type} (p : α → Bool) (f : α → α)
    (l1 l2 : List α) :
    updateWhere p f (l1 ++ l2) = updateWhere p f l1 ++ updateWhere p f l2 :=
  List.map_append _ _ _

/-- End-to-end dispatch of a successful checkout. -/
theorem checkout_run_ok {s : Store} (now : Nat) {itemId : Nat} {pn : String}
    (hd : distinctKeys (fun j : Item => j.id) s.items) {it : Item}
    (hmem : it ∈ s.items) (hid : it.id = itemId)
    (hav : it.currentLoanId = none) (hpn : ¬ jsTrim pn = "") :
    runAction s now "checkout" { itemId := some itemId, patronName := some pn }
      = (okResp (checkoutResult s itemId pn now),
         checkoutResult s itemId pn now) := by
  rw [runAction_checkout_eq, if_neg (by simp),
    if_neg (by simpa [strBlank] using hpn)]
  rw [show ({ itemId := some itemId, patronName := some pn } :
    Payload).itemId.getD 0 = itemId from rfl]
  rw [show ({ itemId := some itemId, patronName := some pn } :
    Payload).patronName.getD "" = pn from rfl]
  rw [checkoutTx_success pn now hd hmem hid hav]
  rfl

/-- End-to-end dispatch of a successful return. -/
theorem return_run_ok {s : Store} (now : Nat) {itemId lid : Nat}
    (hd : distinctKeys (fun j : Item => j.id) s.items)
    (hfk : ∀ j ∈ s.items, ∀ lid2 ∈ j.currentLoanId.toList,
      ∃ l ∈ s.loans, l.id = lid2)
    {it : Item} (hmem : it ∈ s.items) (hid : it.id = itemId)
    (hln : it.currentLoanId = some lid) :
    runAction s now "return" { itemId := some itemId }
      = (okResp (returnResult s itemId lid now),
         returnResult s itemId lid now) := by
  rw [runAction_return_eq, if_neg (by simp)]
  rw [show ({ itemId := some itemId } : Payload).itemId.getD 0 = itemId
    from rfl]
  rw [returnTx_success now hd hfk hmem hid hln]
  rfl

/-- C5 counterexample: in `historyStore` item 1 is AVAILABLE but already
has one closed loan; checkout, return, checkout all succeed, yet
afterwards the item has three loan rows, not the claimed exactly two. -/
theorem checkout_return_checkout_counterexample :
    ((historyStore.items.find? fun j => j.id = 1).map
      fun j => j.currentLoanId) = some none ∧
    (runAction historyStore 100 "checkout"
      { itemId := some 1, patronName := some "Bob" }).1.ok = true ∧
    (runAction (runAction historyStore 100 "checkout"
        { itemId := some 1, patronName := some "Bob" }).2 200 "return"
      { itemId := some 1 }).1.ok = true ∧
    (runAction (runAction (runAction historyStore 100 "checkout"
          { itemId := some 1, patronName := some "Bob" }).2 200 "return"
        { itemId := some 1 }).2 300 "checkout"
      { itemId := some 1, patronName := some "Eve" }).1.ok = true ∧
    ((runAction (runAction (runAction historyStore 100 "checkout"
          { itemId := some 1, patronName := some "Bob" }).2 200 "return"
        { itemId := some 1 }).2 300 "checkout"
      { itemId := some 1, patronName := some "Eve" }).2.loans.filter
        fun l => l.itemId = 1).length = 3 := by
  decide

/-- C5 (amended): from any well-formed state with the item AVAILABLE,
checkout then return then checkout (with valid patron names) all
succeed and create exactly two new distinct Loan rows for the item —
appended to whatever loan history the item already had — the first
closed (`returnedAt` set at the return), the second open and equal to
the item's final `currentLoanId`. -/
theorem checkout_return_checkout_spec (s : Store) (itemId t1 t2 t3 : Nat)
    (pn1 pn2 : String) (hwf : WF s) (it : Item) (hmem : it ∈ s.items)
    (hid : it.id = itemId) (hav : it.currentLoanId = none)
    (hp1 : ¬ jsTrim pn1 = "") (hp2 : ¬ jsTrim pn2 = "") :
    ∃ s1 s2 s3,
      runAction s t1 "checkout"
        { itemId := some itemId, patronName := some pn1 } = (okResp s1, s1) ∧
      runAction s1 t2 "return" { itemId := some itemId } = (okResp s2, s2) ∧
      runAction s2 t3 "checkout"
        { itemId := some itemId, patronName := some pn2 } = (okResp s3, s3) ∧
      s3.loans = s.loans ++
        [⟨s.nextLoanId, itemId, pn1, t1, some t2⟩,
         ⟨s.nextLoanId + 1, itemId, pn2, t3, none⟩] ∧
      s3.loans.filter (fun l => l.itemId = itemId) =
        s.loans.filter (fun l => l.itemId = itemId) ++
          [⟨s.nextLoanId, itemId, pn1, t1, some t2⟩,
           ⟨s.nextLoanId + 1, itemId, pn2, t3, none⟩] ∧
      ¬ s.nextLoanId = s.nextLoanId + 1 ∧
      (∀ j ∈ s3.items, j.id = itemId →
        j.currentLoanId = some (s.nextLoanId + 1)) := by
  have hd := hwf.2.2.1
  have h10 := hwf.2.2.2.2.2.2.2.2.2
  have hok1 : checkoutTx s itemId pn1 t1 =
      .ok (checkoutResult s itemId pn1 t1) :=
    checkoutTx_success pn1 t1 hd hmem hid hav
  have hwf1 : WF (checkoutResult s itemId pn1 t1) := checkoutTx_WF hwf hok1
  have hra1 := checkout_run_ok t1 hd hmem hid hav hp1
  have hm1 : ({ it with currentLoanId := some s.nextLoanId } : Item) ∈
      (checkoutResult s itemId pn1 t1).items :=
    mem_updateWhere_pos hmem (decide_eq_true hid)
  have hok2 : returnTx (checkoutResult s itemId pn1 t1) itemId t2 =
      .ok (returnResult (checkoutResult s itemId pn1 t1) itemId
        s.nextLoanId t2) :=
    returnTx_success t2 hwf1.2.2.1 hwf1.2.2.2.2.2.1 hm1 hid rfl
  have hwf2 : WF (returnResult (checkoutResult s itemId pn1 t1) itemId
      s.nextLoanId t2) := returnTx_WF hwf1 hok2
  have hra2 := return_run_ok t2 hwf1.2.2.1 hwf1.2.2.2.2.2.1 hm1 hid
    (show ({ it with currentLoanId := some s.nextLoanId } :
      Item).currentLoanId = some s.nextLoanId from rfl)
  have hm2 : ({ { it with currentLoanId := some s.nextLoanId } with
      currentLoanId := none } : Item) ∈
      (returnResult (checkoutResult s itemId pn1 t1) itemId
        s.nextLoanId t2).items :=
    mem_updateWhere_pos hm1 (decide_eq_true hid)
  have hra3 := checkout_run_ok t3 hwf2.2.2.1 hm2 hid rfl hp2
  have hloans3 : (checkoutResult (returnResult
      (checkoutResult s itemId pn1 t1) itemId s.nextLoanId t2)
      itemId pn2 t3).loans = s.loans ++
        [⟨s.nextLoanId, itemId, pn1, t1, some t2⟩,
         ⟨s.nextLoanId + 1, itemId, pn2, t3, none⟩] := by
    show (updateWhere (fun l => l.id = s.nextLoanId)
        (fun l => { l with returnedAt := some t2 })
        (s.loans ++ [⟨s.nextLoanId, itemId, pn1, t1, none⟩])) ++
        [⟨s.nextLoanId + 1, itemId, pn2, t3, none⟩] = _
    rw [updateWhere_append,
      updateWhere_eq_self fun l hl => decide_eq_false
        (Nat.ne_of_lt (h10 l hl))]
    rw [show updateWhere (fun l : Loan => l.id = s.nextLoanId)
        (fun l => { l with returnedAt := some t2 })
        [⟨s.nextLoanId, itemId, pn1, t1, none⟩] =
        [⟨s.nextLoanId, itemId, pn1, t1, some t2⟩] by simp [updateWhere]]
    rw [List.append_assoc]
    rfl
  refine ⟨_, _, _, hra1, hra2, hra3, hloans3, ?_, by omega, ?_⟩
  · rw [hloans3, List.filter_append]
    congr 1
    simp
  · intro j hj hjid
    obtain ⟨a, ha, rfl⟩ := of_mem_updateWhere hj
    by_cases hp : a.id = itemId
    · rw [if_pos (decide_eq_true hp)]
      rfl
    · rw [if_neg (by simp [hp])] at hjid ⊢
      exact absurd hjid hp

/-- C5 witness: the amended theorem applied to `historyStore`. -/
theorem checkout_return_checkout_spec_witness :
    ∃ s1 s2 s3,
      runAction historyStore 100 "checkout"
        { itemId := some 1, patronName := some "Bob" } = (okResp s1, s1) ∧
      runAction s1 200 "return" { itemId := some 1 } = (okResp s2, s2) ∧
      runAction s2 300 "checkout"
        { itemId := some 1, patronName := some "Eve" } = (okResp s3, s3) ∧
      s3.loans = historyStore.loans ++
        [⟨1001, 1, "Bob", 100, some 200⟩, ⟨1002, 1, "Eve", 300, none⟩] ∧
      s3.loans.filter (fun l => l.itemId = 1) =
        historyStore.loans.filter (fun l => l.itemId = 1) ++
          [⟨1001, 1, "Bob", 100, some 200⟩, ⟨1002, 1, "Eve", 300, none⟩] ∧
      ¬ (1001 : Nat) = 1002 ∧
      (∀ j ∈ s3.items, j.id = 1 → j.currentLoanId = some 1002) :=
  checkout_return_checkout_spec historyStore 1 100 200 300 "Bob" "Eve"
    (by decide) ⟨1, "The Guide", 1, none, none⟩ (by decide) rfl rfl
    (by decide) (by decide)

theorem loans_find?_eq {s : Store}
    (hd : distinctKeys (fun l : Loan => l.id) s.loans)
    {l : Loan} (hl : l ∈ s.loans) {i : Nat} (hid : l.id = i) :
    (s.loans.find? fun l2 => l2.id = i) = some l :=
  find?_eq_of_distinct hd hl hid

/-- C9: over any well-formed store the snapshot lists the full item-type
and category tables (the categories with their `parentId`), its items
are sorted in ascending id order and are exactly the stored items (their
ids a permutation of the table's), and each item's `currentLoan` is
null exactly when `currentLoanId` is null — when non-null it carries the
pointed-to loan's patron name and its checkout date rendered by
`toISOString`. -/
theorem getSnapshot_spec (s : Store) (hwf : WF s) :
    (getSnapshot s).itemTypes =
      s.itemTypes.map (fun t => ⟨t.id, t.code, t.name⟩) ∧
    (getSnapshot s).categories =
      s.categories.map (fun c => ⟨c.id, c.code, c.name, c.parentId⟩) ∧
    List.Pairwise (fun a b : SnapItem => a.id ≤ b.id) (getSnapshot s).items ∧
    ((getSnapshot s).items.map fun si => si.id).Perm
      (s.items.map fun it => it.id) ∧
    (∀ it ∈ s.items, ∀ si ∈ (getSnapshot s).items, si.id = it.id →
      (it.currentLoanId = none → si.currentLoan = none) ∧
      (∀ lid, it.currentLoanId = some lid →
        ∃ l ∈ s.loans, l.id = lid ∧
          si.currentLoan = some ⟨l.id, l.patronName,
            toISOString l.checkoutDate⟩)) := by
  have hdi := hwf.2.2.1
  have hdl := hwf.2.2.2.1
  have hfk := hwf.2.2.2.2.2.1
  refine ⟨rfl, rfl, ?_, ?_, ?_⟩
  · show List.Pairwise _
      ((List.insertionSort itemIdLe s.items).map (snapItemOf s))
    rw [List.pairwise_map]
    exact (List.sorted_insertionSort itemIdLe s.items).imp fun hab => hab
  · show (((List.insertionSort itemIdLe s.items).map (snapItemOf s)).map
      fun si => si.id).Perm _
    rw [List.map_map]
    exact (List.perm_insertionSort itemIdLe s.items).map _
  · intro it hit si hsi hsid
    obtain ⟨a, ha, rfl⟩ := List.mem_map.mp hsi
    have ha2 : a ∈ s.items :=
      (List.perm_insertionSort itemIdLe s.items).subset ha
    have haeq : a = it := distinctKeys_eq_of_key hdi ha2 hit hsid
    subst haeq
    constructor
    · intro hnone
      show (a.currentLoanId.bind fun lid =>
        (s.loans.find? fun l => l.id = lid).map fun l =>
          (⟨l.id, l.patronName, toISOString l.checkoutDate⟩ : SnapLoan))
        = none
      rw [hnone]
      rfl
    · intro lid hlid
      obtain ⟨l, hl, hlid2⟩ := hfk a ha2 lid (by simp [hlid])
      refine ⟨l, hl, hlid2, ?_⟩
      show (a.currentLoanId.bind fun lid2 =>
        (s.loans.find? fun l2 => l2.id = lid2).map fun l2 =>
          (⟨l2.id, l2.patronName, toISOString l2.checkoutDate⟩ : SnapLoan))
        = some ⟨l.id, l.patronName, toISOString l.checkoutDate⟩
      rw [hlid, Option.some_bind, loans_find?_eq hdl hl hlid2]
      rfl

/-- C9 witness: the snapshot properties instantiated at `sampleStore`. -/
theorem getSnapshot_spec_witness :
    (getSnapshot sampleStore).itemTypes =
      sampleStore.itemTypes.map (fun t => ⟨t.id, t.code, t.name⟩) ∧
    (getSnapshot sampleStore).categories =
      sampleStore.categories.map
        (fun c => ⟨c.id, c.code, c.name, c.parentId⟩) ∧
    List.Pairwise (fun a b : SnapItem => a.id ≤ b.id)
      (getSnapshot sampleStore).items ∧
    ((getSnapshot sampleStore).items.map fun si => si.id).Perm
      (sampleStore.items.map fun it => it.id) ∧
    (∀ it ∈ sampleStore.items, ∀ si ∈ (getSnapshot sampleStore).items,
      si.id = it.id →
      (it.currentLoanId = none → si.currentLoan = none) ∧
      (∀ lid, it.currentLoanId = some lid →
        ∃ l ∈ sampleStore.loans, l.id = lid ∧
          si.currentLoan = some ⟨l.id, l.patronName,
            toISOString l.checkoutDate⟩)) :=
  getSnapshot_spec sampleStore (by decide)
